import Mathlib

/-!
Verification development for the ComfyUI Prompt Manager workflow graph
resolver (`prompt_extractor.py`).

The Python source is shallowly embedded: every definition below mirrors a
function or a contiguous code block of the source, keeping its name where
Lean allows.  Python dictionaries become association lists, Python sets
become lists with membership tests, and the in-place mutation of `visited`
sets is made explicit by threading the set through return values.  Python
numbers (ints and JSON floats) are embedded as exact decimal values
(`PyFloat`, a mantissa/exponent pair): the resolver never performs
arithmetic on strengths — it only constructs, copies and defaults them —
so exact decimals are a faithful carrier.  Inputs that would make the
original raise (e.g. `float()` applied to a non-numeric string) are
outside the scope of every theorem below; at those points the embedding
returns a junk value and a comment marks the divergence.
-/

namespace PromptManager

/-! ### Python string primitives -/

/-- ASCII lower-casing of a character (`str.lower` restricted to the ASCII
range; every string the resolver inspects is ASCII). -/
def asciiLowerChar (c : Char) : Char :=
  if 'A' ≤ c ∧ c ≤ 'Z' then Char.ofNat (c.toNat + 32) else c

/-- Python `s.lower()` (ASCII). -/
def pyLower (s : String) : String := ⟨s.data.map asciiLowerChar⟩

/-- Python whitespace for `str.strip` and `\s` (ASCII subset). -/
def isPySpace (c : Char) : Bool :=
  c = ' ' ∨ c = '\t' ∨ c = '\n' ∨ c = '\r' ∨ c = '\x0b' ∨ c = '\x0c'

/-- Python `s.strip()`. -/
def pyStrip (s : String) : String :=
  ⟨(s.data.dropWhile isPySpace).reverse.dropWhile isPySpace |>.reverse⟩

/-- Substring test on character lists (`needle in hay` for Python strings). -/
def infixOf (needle : List Char) : List Char → Bool
  | [] => needle.isEmpty
  | c :: rest => needle.isPrefixOf (c :: rest) || infixOf needle rest

/-- Python `sub in s` for strings. -/
def pyIn (sub s : String) : Bool := infixOf sub.data s.data

/-- Word character for the regex `\b` boundary (`[a-zA-Z0-9_]`; the
resolver only searches lower-cased ASCII text). -/
def isWordChar (c : Char) : Bool := c.isAlphanum || c = '_'

/-- A `\b` boundary holds next to the end of the text or next to a
non-word character. -/
def wordBoundaryOk : Option Char → Bool
  | none => true
  | some c => !isWordChar c

/-- Scan for `\b` + `w` + `\b` in `s`, remembering the previous character. -/
def searchWordAux (w : List Char) : Option Char → List Char → Bool
  | _, [] => false
  | prev, c :: rest =>
    (w.isPrefixOf (c :: rest) && wordBoundaryOk prev
        && wordBoundaryOk ((c :: rest).drop w.length).head?)
    || searchWordAux w (some c) rest

/-- `re.search(r'\b<w>\b', s)` as a Boolean, for a non-empty word `w`
made of word characters (the source only uses "high" and "low"). -/
def searchWord (w : String) (s : String) : Bool :=
  searchWordAux w.data none s.data

/-- Remove every occurrence of the characters in `cs`
(`s.replace(c, '')` chained, as in the "highnoise" fallback). -/
def removeChars (cs : List Char) (s : String) : String :=
  ⟨s.data.filter (fun c => !cs.contains c)⟩

/-- Collapse runs of whitespace into single spaces (`re.sub(r'\s+', ' ', s)`). -/
def collapseWsAux (prevSpace : Bool) : List Char → List Char
  | [] => []
  | c :: rest =>
    if isPySpace c then
      if prevSpace then collapseWsAux true rest
      else ' ' :: collapseWsAux true rest
    else c :: collapseWsAux false rest

def collapseWs (s : String) : String := ⟨collapseWsAux false s.data⟩

/-- `os.path.basename` with POSIX separators (the deployment the source
targets): the part after the last `/`. -/
def posixBasename (s : String) : String :=
  ⟨s.data.foldl (fun acc c => if c = '/' then [] else acc ++ [c]) []⟩

/-- The root part of `os.path.splitext`: split at the last `.` unless all
characters before it are dots (so `.bashrc` keeps its name). -/
def splitextRoot (s : String) : String :=
  let l := s.data
  match (l.reverse.findIdx? (fun c => c = '.')) with
  | none => s
  | some j =>
    let pre := l.take (l.length - 1 - j)
    if pre.any (fun c => c ≠ '.') then ⟨pre⟩ else s

/-- `os.path.splitext(os.path.basename(p))[0]`, the adapter-name
normalization used throughout the source. -/
def normLoraName (p : String) : String := splitextRoot (posixBasename p)

/-! ### Python numbers

Every number the resolver touches is an exact decimal (a JSON int or
float literal, or a decimal numeral parsed from text), and the resolver
never adds or multiplies strengths, so numbers are embedded as exact
decimals `mant / 10 ^ exp`. -/

structure PyFloat where
  mant : Int
  exp : Nat
deriving Repr, DecidableEq

/-- The rational value of an embedded number. -/
def PyFloat.val (x : PyFloat) : ℚ := (x.mant : ℚ) / 10 ^ x.exp

def PyFloat.ofInt (n : Int) : PyFloat := ⟨n, 0⟩

/-- Parse a decimal numeral the way `float()` does on the inputs in scope
(optional surrounding whitespace, optional sign, digits with an optional
fractional part).  Exponents, `inf`/`nan` and other exotic accepted forms
are outside the model's scope. -/
def parseDecimal? (s : String) : Option PyFloat :=
  let l := (pyStrip s).data
  let (sign, l) := match l with
    | '-' :: rest => ((-1 : Int), rest)
    | '+' :: rest => ((1 : Int), rest)
    | l => ((1 : Int), l)
  let intPart := l.takeWhile Char.isDigit
  let rest := l.drop intPart.length
  let (fracPart, rest) := match rest with
    | '.' :: r => (r.takeWhile Char.isDigit, (r.dropWhile Char.isDigit))
    | r => ([], r)
  if rest = [] ∧ (intPart ≠ [] ∨ fracPart ≠ []) then
    let digits := intPart ++ fracPart
    let m : Nat := digits.foldl (fun acc c => acc * 10 + (c.toNat - '0'.toNat)) 0
    some ⟨sign * m, fracPart.length⟩
  else none

/-- `float(s)` on a string.  Where Python would raise `ValueError` the
embedding returns `0`; no theorem depends on that case. -/
def pyFloatOfStr (s : String) : PyFloat := (parseDecimal? s).getD ⟨0, 0⟩

/-! ### JSON-ish widget values -/

/-- A Python value appearing in `widgets_values` / API `inputs`. -/
inductive WValue where
  | str (s : String)
  | num (x : PyFloat)
  | boolean (b : Bool)
  | vlist (l : List WValue)
  | vdict (l : List (String × WValue))
  | null

/-- Python truthiness. -/
def pyTruthy : WValue → Bool
  | .str s => s ≠ ""
  | .num x => x.mant ≠ 0
  | .boolean b => b
  | .vlist l => !l.isEmpty
  | .vdict l => !l.isEmpty
  | .null => false

/-- `d.get(k, default)` on an embedded dict. -/
def dictGet (l : List (String × WValue)) (k : String) (dflt : WValue) : WValue :=
  match l.find? (fun p => p.1 = k) with
  | some p => p.2
  | none => dflt

/-- `isinstance(v, (int, float))` — in Python this also accepts `bool`
(`True` counts as `1`).  Returns the numeric value when it holds. -/
def wvNum? : WValue → Option PyFloat
  | .num x => some x
  | .boolean b => some (if b then ⟨1, 0⟩ else ⟨0, 0⟩)
  | _ => none

/-- `float(v)`.  On values where Python would raise (`None`, lists,
dicts) the embedding returns `0`; no theorem depends on that case. -/
def pyFloatOf : WValue → PyFloat
  | .num x => x
  | .boolean b => if b then ⟨1, 0⟩ else ⟨0, 0⟩
  | .str s => pyFloatOfStr s
  | _ => ⟨0, 0⟩

/-! ### Data model (graph documents and adapter records) -/

/-- A declared input slot.  `label` defaults to `''`
(`inp.get('label', '')` in the source); `link` is the optional link id. -/
structure InputSlot where
  name : String := ""
  type : String := ""
  label : String := ""
  link : Option Nat := none
deriving Repr, DecidableEq

/-- A declared output slot: its type tag and its optional link-id list
(`None`, `[]` and a populated list are distinct in the source). -/
structure OutputSlot where
  type : String := ""
  links : Option (List Nat) := none
deriving Repr, DecidableEq

/-- A graph node of the workflow (UI) format. -/
structure WNode where
  id : Nat
  type : String := ""
  title : String := ""
  widgets_values : List WValue := []
  inputs : List InputSlot := []
  outputs : List OutputSlot := []

/-- A link `[id, source_node, source_slot, dest_node, dest_slot, type]`
(only well-formed links, which all traversal requires, are modelled). -/
structure Link where
  id : Nat
  source_node : Nat
  source_slot : Nat
  dest_node : Nat
  dest_slot : Nat
deriving Repr, DecidableEq

/-- A workflow document: top-level nodes and links plus the flattened
contents of `definitions.subgraphs` (the source only ever concatenates
the per-subgraph node/link arrays in order). -/
structure Workflow where
  nodes : List WNode := []
  links : List Link := []
  subgraphNodes : List WNode := []
  subgraphLinks : List Link := []

/-- The canonical adapter record produced by every extractor. -/
structure Lora where
  name : String
  path : String
  model_strength : PyFloat
  clip_strength : PyFloat
  active : Bool := true
deriving Repr, DecidableEq

/-- `inp.get('link')` used as a guard: Python truthiness makes a link id
of `0` falsy as well as `None`. -/
def linkTruthy : Option Nat → Bool
  | some l => l ≠ 0
  | none => false

/-! ### Blacklist (`is_lora_blacklisted`, source lines 30-48) -/

/-- A blacklist entry: a single keyword, or a group of keywords that must
all match. -/
inductive BlacklistEntry where
  | single (kw : String)
  | group (kws : List String)

abbrev Blacklist := List BlacklistEntry

/-- The module-level `LORA_BLACKLIST` constant of the source. -/
def LORA_BLACKLIST : Blacklist :=
  [.single "lightx2v", .group ["4steps", "seko"], .group ["4steps", "lightning"]]

/-- `is_lora_blacklisted(lora_name)`: case-insensitive substring test,
an AND over every keyword of a group entry.  The blacklist, a module
constant in the source, is an explicit parameter here. -/
def is_lora_blacklisted (bl : Blacklist) (lora_name : String) : Bool :=
  if lora_name = "" then false else
  let lower := pyLower lora_name
  bl.any fun e =>
    match e with
    | .group kws => kws.all (fun k => pyIn (pyLower k) lower)
    | .single k => pyIn (pyLower k) lower

/-! ### Graph index (`build_node_map` / `build_link_map`) -/

/-- Insert with Python-dict overwrite semantics (later insertions of the
same key replace the value). -/
def mapInsert {α : Type} (m : List (Nat × α)) (k : Nat) (v : α) : List (Nat × α) :=
  if m.any (fun p => p.1 = k) then
    m.map (fun p => if p.1 = k then (k, v) else p)
  else m ++ [(k, v)]

def mapLookup {α : Type} (m : List (Nat × α)) (k : Nat) : Option α :=
  (m.find? (fun p => p.1 = k)).map (fun p => p.2)

/-- `build_node_map`: top-level nodes, then every subgraph's nodes. -/
def build_node_map (wf : Workflow) : List (Nat × WNode) :=
  (wf.nodes ++ wf.subgraphNodes).foldl (fun m n => mapInsert m n.id n) []

/-- `build_link_map`: top-level links, then every subgraph's links. -/
def build_link_map (wf : Workflow) : List (Nat × Link) :=
  (wf.links ++ wf.subgraphLinks).foldl (fun m l => mapInsert m l.id l) []

abbrev NodeMap := List (Nat × WNode)
abbrev LinkMap := List (Nat × Link)

/-! ### Polarity classification (`determine_clip_text_encode_type`,
source lines 772-800) -/

/-- Scan the top-level links for one whose source is this node and whose
destination input-slot name contains "positive" or "negative"; the first
such link decides. -/
def determine_clip_text_encode_type (wf : Workflow) (nm : NodeMap)
    (node_id : Nat) : Option String :=
  wf.links.foldl
    (fun acc link =>
      match acc with
      | some r => some r
      | none =>
        if link.source_node = node_id then
          match mapLookup nm link.dest_node with
          | some dest_node =>
            match dest_node.inputs[link.dest_slot]? with
            | some inp =>
              let input_name := pyLower inp.name
              if pyIn "positive" input_name then some "positive"
              else if pyIn "negative" input_name then some "negative"
              else none
            | none => none
          | none => none
        else none)
    none

/-! ### Text resolution (`traverse_to_find_text`, source lines 803-932)

The Python function mutates one shared `visited` set in place (except in
the concatenation branch, which hands each operand a copy); the embedding
threads the set explicitly, returning the text together with the updated
set. -/

/-- First string widget with non-empty `strip` (`PrimitiveString` family). -/
def firstStrippedStr : List WValue → Option String
  | [] => none
  | .str v :: rest => if pyStrip v ≠ "" then some (pyStrip v) else firstStrippedStr rest
  | _ :: rest => firstStrippedStr rest

/-- First string widget longer than `n` characters, stripped. -/
def firstLongStr (n : Nat) : List WValue → Option String
  | [] => none
  | .str v :: rest => if v.length > n then some (pyStrip v) else firstLongStr n rest
  | _ :: rest => firstLongStr n rest

/-- Delimiter choice of the concatenation branch: the first string widget
of length ≤ 3, else a single space. -/
def concatDelimiter : List WValue → String
  | [] => " "
  | .str v :: rest => if v.length ≤ 3 then v else concatDelimiter rest
  | _ :: rest => concatDelimiter rest

def traverse_to_find_text (nm : NodeMap) (lm : LinkMap) :
    Nat → Nat → List Nat → Nat → String × List Nat
  | _, _, visited, 0 => ("", visited)
  | node_id, _input_slot, visited, max_depth + 1 =>
    if node_id ∈ visited then ("", visited) else
    let visited := node_id :: visited
    match mapLookup nm node_id with
    | none => ("", visited)
    | some node =>
      let node_type := node.type
      let widgets_values := node.widgets_values
      let inputs := node.inputs
      -- PrimitiveStringMultiline family: first non-blank string widget
      let step1 : Option (String × List Nat) :=
        if node_type ∈ ["PrimitiveStringMultiline", "PrimitiveString", "String", "Text"] then
          (firstStrippedStr widgets_values).map (fun s => (s, visited))
        else none
      match step1 with
      | some r => r
      | none =>
      -- CLIPTextEncode family: long widget, else follow the "text" input;
      -- this branch always returns
      if node_type ∈ ["CLIPTextEncode", "CLIPTextEncodeSDXL", "CLIPTextEncodeFlux"] then
        match firstLongStr 10 widgets_values with
        | some s => (s, visited)
        | none =>
          let r := inputs.foldl
            (fun (acc : Option (String × List Nat)) inp =>
              match acc with
              | some r => some r
              | none =>
                if inp.name = "text" ∧ linkTruthy inp.link then
                  match inp.link.bind (mapLookup lm) with
                  | some li =>
                    some (traverse_to_find_text nm lm li.source_node li.source_slot
                      visited max_depth)
                  | none => none
                else none)
            none
          r.getD ("", visited)
      else
      -- concatenation family: join resolvable operands; each operand gets
      -- a copy of the visited set
      if node_type ∈ ["StringConcatenate", "Text Concatenate", "Concat String"] then
        let delimiter := concatDelimiter widgets_values
        let parts := inputs.foldl
          (fun parts inp =>
            if inp.name ∈ ["string_a", "string_b", "text_a", "text_b"] ∧ linkTruthy inp.link then
              match inp.link.bind (mapLookup lm) with
              | some li =>
                let t := (traverse_to_find_text nm lm li.source_node li.source_slot
                    visited max_depth).1
                if t ≠ "" then parts ++ [t] else parts
              | none => parts
            else parts)
          ([] : List String)
        if parts ≠ [] then (String.intercalate delimiter parts, visited)
        else ("", visited)
      else
      -- find-and-replace family: pass through the first relevant input;
      -- fall through when none resolves
      let frResult : Option (String × List Nat) :=
        if node_type ∈ ["Text Find and Replace", "FindReplace", "String Replace"] then
          inputs.foldl
            (fun (acc : Option (String × List Nat)) inp =>
              match acc with
              | some r => some r
              | none =>
                if inp.name ∈ ["text", "string", "input"] ∧ linkTruthy inp.link then
                  match inp.link.bind (mapLookup lm) with
                  | some li =>
                    some (traverse_to_find_text nm lm li.source_node li.source_slot
                      visited max_depth)
                  | none => none
                else none)
            none
        else none
      match frResult with
      | some r => r
      | none =>
      -- caption family: cached long literal or nothing; always returns
      if node_type ∈ ["Florence2Run", "Florence2"] then
        match firstLongStr 20 widgets_values with
        | some s => (s, visited)
        | none => ("", visited)
      else
      -- show-text family: pass through any linked input; fall through
      -- when none resolves
      let showResult : Option (String × List Nat) :=
        if node_type ∈ ["easy showAnything", "ShowText", "Preview String"] then
          inputs.foldl
            (fun (acc : Option (String × List Nat)) inp =>
              match acc with
              | some r => some r
              | none =>
                if linkTruthy inp.link then
                  match inp.link.bind (mapLookup lm) with
                  | some li =>
                    some (traverse_to_find_text nm lm li.source_node li.source_slot
                      visited max_depth)
                  | none => none
                else none)
            none
        else none
      match showResult with
      | some r => r
      | none =>
      -- generic fallbacks: a long widget literal, else the first
      -- text-ish input that resolves to something non-empty (the visited
      -- set is shared across the attempts, as in the source)
      match firstLongStr 20 widgets_values with
      | some s => (s, visited)
      | none =>
        let st := inputs.foldl
          (fun (st : Option String × List Nat) inp =>
            match st with
            | (some r, visited) => (some r, visited)
            | (none, visited) =>
              let nameLower := pyLower inp.name
              if (pyIn "text" nameLower ∨ pyIn "string" nameLower ∨ pyIn "prompt" nameLower)
                  ∧ linkTruthy inp.link then
                match inp.link.bind (mapLookup lm) with
                | some li =>
                  let r := traverse_to_find_text nm lm li.source_node
                    li.source_slot visited max_depth
                  if r.1 ≠ "" then (some r.1, r.2)
                  else (none, r.2)
                | none => (none, visited)
              else (none, visited))
          (none, visited)
        (st.1.getD "", st.2)

/-! ### Adapter extractors (source lines 935-1245)

One decoder per loader-node family.  Fields Python reads with `.get` keep
their defaults; enable flags are stored by truthiness (downstream the
source only ever tests them with `if not lora.get('active', True)`).
Entries whose name value is not a string would make the original raise
inside `os.path.basename`; the embedding skips them and no theorem
touches that case. -/

/-- Python `a or b`. -/
def pyOr (a b : WValue) : WValue := if pyTruthy a then a else b

/-- `extract_power_lora_loader`: dict-shaped widget entries
`{"on": _, "lora": _, "strength": _, "strengthTwo": _}`. -/
def extract_power_lora_loader (node : WNode) : List Lora :=
  node.widgets_values.foldl
    (fun loras val =>
      match val with
      | .vdict d =>
        match dictGet d "lora" .null with
        | .str lora_path =>
          if lora_path ≠ "" then
            let strength := pyFloatOf (dictGet d "strength" (.num ⟨1, 0⟩))
            let clip_strength :=
              match dictGet d "strengthTwo" .null with
              | .null => strength
              | v => pyFloatOf v
            let is_active := pyTruthy (dictGet d "on" (.boolean true))
            let l : Lora :=
              { name := normLoraName lora_path
                path := lora_path
                model_strength := strength
                clip_strength := clip_strength
                active := is_active }
            loras ++ [l]
          else loras
        | _ => loras
      | _ => loras)
    []

/-- Shared decoding of one dict record of the Lora-Stacker family
(`{"name": _, "strength": _, "clipStrength": _, "active": _}`). -/
def loraManagerDictItem (d : List (String × WValue)) : Option Lora :=
  match dictGet d "name" (.str "") with
  | .str lora_name =>
    if lora_name ≠ "" then
      let strength :=
        match dictGet d "strength" (.num ⟨1, 0⟩) with
        | .str t => pyFloatOfStr t
        | v => pyFloatOf v
      let clip_strength :=
        match (d.find? (fun p => p.1 = "clipStrength")).map (fun p => p.2) with
        | none => strength
        | some (.str t) => pyFloatOfStr t
        | some v => pyFloatOf v
      let is_active := pyTruthy (dictGet d "active" (.boolean true))
      some
        { name := lora_name
          path := ""
          model_strength := strength
          clip_strength := clip_strength
          active := is_active }
    else none
  | _ => none

/-- `extract_lora_manager_stacker`: list-valued widget entries holding
dict records; the name is kept verbatim (no normalization), the path is
empty. -/
def extract_lora_manager_stacker (node : WNode) : List Lora :=
  node.widgets_values.foldl
    (fun loras val =>
      match val with
      | .vlist items =>
        items.foldl
          (fun loras item =>
            match item with
            | .vdict d =>
              match loraManagerDictItem d with
              | some l => loras ++ [l]
              | none => loras
            | _ => loras)
          loras
      | _ => loras)
    []

/-- The positional (name, strength) pair walk of
`extract_wan_video_lora_select_multi`: skip `"none"`/blank names two at a
time, consume a name followed by a numeric strength as one entry, else
advance one position. -/
def wanPairs : List WValue → List Lora
  | a :: b :: rest =>
    match a with
    | .str lora_name =>
      if pyLower lora_name = "none" ∨ pyStrip lora_name = "" then wanPairs rest
      else
        match wvNum? b with
        | some q =>
          let l : Lora :=
            { name := normLoraName lora_name
              path := lora_name
              model_strength := q
              clip_strength := q
              active := true }
          l :: wanPairs rest
        | none => wanPairs (b :: rest)
    | _ => wanPairs (b :: rest)
  | _ => []

/-- One dict record of the legacy fallback formats of
`extract_wan_video_lora_select_multi` (the source has this block twice,
verbatim, for list items and for top-level dict widgets). -/
def wanLegacyDictItem (d : List (String × WValue)) : Option Lora :=
  let nameV := pyOr (dictGet d "lora" .null)
    (pyOr (dictGet d "name" .null) (dictGet d "lora_name" (.str "")))
  match nameV with
  | .str lora_name =>
    if lora_name ≠ "" ∧ lora_name ≠ "None" then
      let strength :=
        match pyOr (dictGet d "strength" .null) (dictGet d "model_strength" (.num ⟨1, 0⟩)) with
        | .str t => if t ≠ "" then pyFloatOfStr t else ⟨1, 0⟩
        | v => pyFloatOf v
      let clip_strength :=
        match pyOr (dictGet d "clip_strength" .null) (dictGet d "strengthTwo" .null) with
        | .null => strength
        | .str t => if t ≠ "" then pyFloatOfStr t else strength
        | v => pyFloatOf v
      let is_active := pyTruthy (dictGet d "on"
        (dictGet d "active" (dictGet d "enabled" (.boolean true))))
      some
        { name := normLoraName lora_name
          path := lora_name
          model_strength := strength
          clip_strength := clip_strength
          active := is_active }
    else none
  | _ => none

/-- The legacy fallback loop of `extract_wan_video_lora_select_multi`:
list widgets holding dict or string entries, and dict widgets. -/
def wanLegacy (widgets_values : List WValue) : List Lora :=
  widgets_values.foldl
    (fun loras val =>
      match val with
      | .vlist items =>
        items.foldl
          (fun loras item =>
            match item with
            | .vdict d =>
              match wanLegacyDictItem d with
              | some l => loras ++ [l]
              | none => loras
            | .str s =>
              if s ≠ "" ∧ s ≠ "None" then
                let l : Lora :=
                  { name := normLoraName s
                    path := s
                    model_strength := ⟨1, 0⟩
                    clip_strength := ⟨1, 0⟩
                    active := true }
                loras ++ [l]
              else loras
            | _ => loras)
          loras
      | .vdict d =>
        match wanLegacyDictItem d with
        | some l => loras ++ [l]
        | none => loras
      | _ => loras)
    []

/-- `extract_wan_video_lora_select_multi`: the pair walk, then the legacy
fallback loop (the source always runs both). -/
def extract_wan_video_lora_select_multi (node : WNode) : List Lora :=
  wanPairs node.widgets_values ++ wanLegacy node.widgets_values

/-- The bounded pair walk of `extract_lora_loader_stack_rgthree` (at most
4 adapters, i.e. positions 0-7); `i` is the running widget index. -/
def rgthreePairs (i : Nat) : List WValue → List Lora
  | a :: b :: rest =>
    if i < 8 then
      match a with
      | .str lora_name =>
        if lora_name = "None" ∨ pyStrip lora_name = "" then rgthreePairs (i + 2) rest
        else
          match wvNum? b with
          | some q =>
            let l : Lora :=
              { name := normLoraName lora_name
                path := lora_name
                model_strength := q
                clip_strength := q
                active := true }
            l :: rgthreePairs (i + 2) rest
          | none => rgthreePairs (i + 1) (b :: rest)
      | _ => rgthreePairs (i + 1) (b :: rest)
    else []
  | _ => []

def extract_lora_loader_stack_rgthree (node : WNode) : List Lora :=
  rgthreePairs 0 node.widgets_values

/-- `extract_standard_lora_loader`: `config` is
`[name, strength?, clipStrength?]`; always active. -/
def extract_standard_lora_loader (node : WNode) : List Lora :=
  let widgets_values := node.widgets_values
  if widgets_values.length < 1 then [] else
  let lora_name := match widgets_values.head? with
    | some (.str s) => s
    | _ => ""
  if lora_name = "" then [] else
  let model_strength : PyFloat :=
    if widgets_values.length ≥ 2 then
      match widgets_values[1]? with
      | some WValue.null => ⟨1, 0⟩
      | some v => pyFloatOf v
      | none => ⟨1, 0⟩
    else ⟨1, 0⟩
  let clip_strength : PyFloat :=
    if widgets_values.length ≥ 3 then
      match widgets_values[2]? with
      | some WValue.null => model_strength
      | some v => pyFloatOf v
      | none => model_strength
    else model_strength
  [{ name := normLoraName lora_name
     path := lora_name
     model_strength := model_strength
     clip_strength := clip_strength
     active := true }]

/-- The Lora-Stacker kind list shared by the dispatcher and the
stack-chain walk. -/
def lora_stacker_types : List String :=
  ["Lora Stacker (LoraManager)", "LoRA Stacker", "LoraStacker",
   "LoRA Stacker (LoRA Manager)"]

/-- `extract_loras_from_node`: dispatch on the node kind. -/
def extract_loras_from_node (node : WNode) : List Lora :=
  let node_type := node.type
  if node_type = "Power Lora Loader (rgthree)" then
    extract_power_lora_loader node
  else if node_type ∈ lora_stacker_types then
    extract_lora_manager_stacker node
  else if node_type = "WanVideoLoraSelectMulti" then
    extract_wan_video_lora_select_multi node
  else if node_type = "Lora Loader Stack (rgthree)" then
    extract_lora_loader_stack_rgthree node
  else if node_type ∈ ["LoraLoader", "LoraLoaderModelOnly", "LoRALoader",
      "LoraLoaderKJNodes"] then
    extract_standard_lora_loader node
  else []

/-- `is_lora_node`: is this kind any adapter-loader family? -/
def is_lora_node (node_type : String) : Bool :=
  node_type ∈ ["Power Lora Loader (rgthree)", "Lora Loader Stack (rgthree)",
    "Lora Stacker (LoraManager)", "LoRA Stacker", "LoraStacker",
    "LoRA Stacker (LoRA Manager)", "LoraLoader", "LoraLoaderModelOnly",
    "LoRALoader", "LoraLoaderKJNodes", "WanVideoLoraSelectMulti"]

/-! ### Chain collection (source lines 1248-1481)

`collect_lora_model_chain` recurses along a finite graph under a growing
visited set; the embedding adds an explicit fuel argument, and the
public entry point passes `|node map| + 1` fuel, which the recursion —
one unvisited mapped node per level — can never exhaust. -/

/-- The connected-output gate of `collect_lora_model_chain`: some output
of type MODEL / LORA_STACK / WANVIDLORA has a non-`None`, non-empty link
list. -/
def hasConnectedModelOutput (node : WNode) : Bool :=
  node.outputs.any fun output =>
    decide (output.type ∈ ["MODEL", "LORA_STACK", "WANVIDLORA"]) &&
    (match output.links with
     | some ls => decide (ls.length > 0)
     | none => false)

/-- The adapters/titles a loader node itself contributes inside
`collect_lora_model_chain`: only when it is a loader kind and its model
output is live. -/
def ownChainContribution (node : WNode) : List Lora × List String :=
  if is_lora_node node.type ∧ hasConnectedModelOutput node then
    (extract_loras_from_node node,
     if node.title ≠ "" then [node.title] else [])
  else ([], [])

/-- The backward walk over model-ish inputs
(`model`/`MODEL`/`lora_stack`/`lora` by name, or WANVIDLORA by type):
recurse into each linked producer, accumulating adapters and titles and
threading the visited set.  `recurse` is the chain collector at the next
fuel level. -/
def chainInputsFold (recurse : Nat → List Nat → List Lora × List String × List Nat)
    (lm : LinkMap) (inputs : List InputSlot)
    (init : List Lora × List String × List Nat) :
    List Lora × List String × List Nat :=
  inputs.foldl
    (fun (acc : List Lora × List String × List Nat) inp =>
      let (all_loras, all_titles, visited) := acc
      if (inp.name ∈ ["model", "MODEL", "lora_stack", "lora"]
          ∨ inp.type = "WANVIDLORA") ∧ linkTruthy inp.link then
        match inp.link.bind (mapLookup lm) with
        | some link_info =>
          let (chain_loras, chain_titles, visited') :=
            recurse link_info.source_node visited
          (all_loras ++ chain_loras, all_titles ++ chain_titles, visited')
        | none => (all_loras, all_titles, visited)
      else (all_loras, all_titles, visited))
    init

/-- `collect_lora_model_chain`: the node's own (connectivity-gated)
contribution, then the backward walk over its model-ish inputs. -/
def collectModelChainGo (nm : NodeMap) (lm : LinkMap) :
    Nat → Nat → List Nat → List Lora × List String × List Nat
  | 0, _, visited => ([], [], visited)
  | fuel + 1, start_node_id, visited =>
    if start_node_id ∈ visited then ([], [], visited) else
    let visited := start_node_id :: visited
    match mapLookup nm start_node_id with
    | none => ([], [], visited)
    | some node =>
      let own := ownChainContribution node
      chainInputsFold (collectModelChainGo nm lm fuel) lm node.inputs
        (own.1, own.2, visited)

/-- Entry point of `collect_lora_model_chain` (fresh visited set). -/
def collect_lora_model_chain (nm : NodeMap) (lm : LinkMap)
    (start_node_id : Nat) : List Lora × List String :=
  let r := collectModelChainGo nm lm (nm.length + 1) start_node_id []
  (r.1, r.2.1)

/-- `collect_lora_stack_chain`: the LORA_STACK-specific walk over
`lora_stack` inputs; stacker nodes contribute unconditionally here. -/
def collectStackChainGo (nm : NodeMap) (lm : LinkMap) :
    Nat → Nat → List Nat → List Lora × List String × List Nat
  | 0, _, visited => ([], [], visited)
  | fuel + 1, start_node_id, visited =>
    if start_node_id ∈ visited then ([], [], visited) else
    let visited := start_node_id :: visited
    match mapLookup nm start_node_id with
    | none => ([], [], visited)
    | some node =>
      let own : List Lora × List String :=
        if node.type ∈ lora_stacker_types then
          (extract_lora_manager_stacker node,
           if node.title ≠ "" then [node.title] else [])
        else ([], [])
      node.inputs.foldl
        (fun (acc : List Lora × List String × List Nat) inp =>
          let (all_loras, all_titles, visited) := acc
          if inp.name = "lora_stack" ∧ linkTruthy inp.link then
            match inp.link.bind (mapLookup lm) with
            | some link_info =>
              let (chain_loras, chain_titles, visited') :=
                collectStackChainGo nm lm fuel link_info.source_node visited
              (all_loras ++ chain_loras, all_titles ++ chain_titles, visited')
            | none => (all_loras, all_titles, visited)
          else (all_loras, all_titles, visited))
        (own.1, own.2, visited)

def collect_lora_stack_chain (nm : NodeMap) (lm : LinkMap)
    (start_node_id : Nat) : List Lora × List String :=
  let r := collectStackChainGo nm lm (nm.length + 1) start_node_id []
  (r.1, r.2.1)

/-- `trace_to_lora_loader`: bounded backward walk (default depth 10) to
the first loader node; returns its id.  The visited set is threaded. -/
def trace_to_lora_loader (nm : NodeMap) (lm : LinkMap) :
    Nat → Nat → List Nat → Option Nat × List Nat
  | 0, _, visited => (none, visited)
  | max_depth + 1, node_id, visited =>
    if node_id ∈ visited then (none, visited) else
    let visited := node_id :: visited
    match mapLookup nm node_id with
    | none => (none, visited)
    | some node =>
      if is_lora_node node.type then (some node_id, visited)
      else
        node.inputs.foldl
          (fun (acc : Option Nat × List Nat) inp =>
            match acc with
            | (some r, visited) => (some r, visited)
            | (none, visited) =>
              if (inp.name ∈ ["model", "MODEL", "lora"]
                  ∨ inp.type ∈ ["MODEL", "WANVIDLORA"]) ∧ linkTruthy inp.link then
                match inp.link.bind (mapLookup lm) with
                | some link_info =>
                  trace_to_lora_loader nm lm max_depth link_info.source_node visited
                | none => (none, visited)
              else (none, visited))
          (none, visited)

/-- A terminal record of `find_lora_chain_terminals`. -/
structure TerminalInfo where
  terminal_id : Nat
  terminal_type : String
  terminal_title : String
  lora_source_id : Nat
  input_name : String
  input_label : String
deriving Repr, DecidableEq

/-- The model-ish input names recognized at terminals. -/
def model_input_names : List String :=
  ["model", "MODEL", "model_high_noise", "model_low_noise",
   "base_model", "refiner_model", "unet"]

/-- `find_lora_chain_terminals`: every non-loader node with a model-typed
linked input whose backward trace reaches a loader; one record per such
input, with the input label lower-cased. -/
def find_lora_chain_terminals (wf : Workflow) (nm : NodeMap) (lm : LinkMap) :
    List TerminalInfo :=
  (wf.nodes ++ wf.subgraphNodes).foldl
    (fun terminals node =>
      if is_lora_node node.type then terminals else
      node.inputs.foldl
        (fun terminals inp =>
          let is_model_input :=
            inp.type ∈ ["MODEL", "WANVIDLORA"] ∨ inp.name ∈ model_input_names
          if is_model_input ∧ linkTruthy inp.link then
            match inp.link.bind (mapLookup lm) with
            | some link_info =>
              match (trace_to_lora_loader nm lm 10 link_info.source_node []).1 with
              | some lora_source_id =>
                let t : TerminalInfo :=
                  { terminal_id := node.id
                    terminal_type := node.type
                    terminal_title := node.title
                    lora_source_id := lora_source_id
                    input_name := inp.name
                    input_label := pyLower inp.label }
                terminals ++ [t]
              | none => terminals
            | none => terminals
          else terminals)
        terminals)
    []

/-! ### Chain records and chain building
(`parse_workflow_for_prompts`, source lines 1640-1741) -/

/-- The ephemeral chain aggregate built for lane classification.
`input_name`/`input_label` default to `''`: the stack-chain method builds
its records without them and the classifier reads them with `.get`. -/
structure Chain where
  titles : List String
  loras : List Lora
  terminal_title : String
  source_id : Nat
  input_name : String := ""
  input_label : String := ""
deriving Repr, DecidableEq

/-- Method 1: one chain per unseen `(terminal, input)` pair, collected
backwards from the traced loader; empty collections are dropped. -/
def buildModelChains (wf : Workflow) (nm : NodeMap) (lm : LinkMap) : List Chain :=
  let terminals := find_lora_chain_terminals wf nm lm
  (terminals.foldl
    (fun (acc : List Chain × List (Nat × String)) terminal_info =>
      let (chains, processed) := acc
      let terminal_key := (terminal_info.terminal_id, terminal_info.input_name)
      if terminal_key ∈ processed then acc
      else
        let (chain_loras, chain_titles) :=
          collect_lora_model_chain nm lm terminal_info.lora_source_id
        let processed := processed ++ [terminal_key]
        if chain_loras ≠ [] then
          let c : Chain :=
            { titles := chain_titles
              loras := chain_loras
              terminal_title := terminal_info.terminal_title
              source_id := terminal_info.lora_source_id
              input_name := terminal_info.input_name
              input_label := terminal_info.input_label }
          (chains ++ [c], processed)
        else (chains, processed))
    ([], [])).1

/-- The method-2 connectivity gate: any output with a truthy link list
(no type restriction here, unlike the model-chain gate). -/
def hasAnyConnectedOutput (node : WNode) : Bool :=
  node.outputs.any fun output =>
    match output.links with
    | some ls => !ls.isEmpty
    | none => false

/-- Method 2: LORA_STACK chains collected from terminal stackers
(stackers that feed no other stacker) whose output is connected. -/
def buildStackChains (wf : Workflow) (nm : NodeMap) (lm : LinkMap) : List Chain :=
  let all_nodes := wf.nodes ++ wf.subgraphNodes
  let stacker_nodes := all_nodes.foldl
    (fun m n => if n.type ∈ lora_stacker_types then mapInsert m n.id n else m) []
  let stackers_feeding_stackers : List Nat := all_nodes.foldl
    (fun s n =>
      if n.type ∈ lora_stacker_types then
        n.inputs.foldl
          (fun s inp =>
            if inp.name = "lora_stack" ∧ linkTruthy inp.link then
              match inp.link.bind (mapLookup lm) with
              | some link_info =>
                if stacker_nodes.any (fun p => p.1 = link_info.source_node)
                    ∧ link_info.source_node ∉ s then
                  s ++ [link_info.source_node]
                else s
              | none => s
            else s)
          s
      else s)
    []
  let terminal_stackers := (stacker_nodes.map (fun p => p.1)).filter
    (fun nid => nid ∉ stackers_feeding_stackers)
  terminal_stackers.foldl
    (fun chains terminal_id =>
      match mapLookup stacker_nodes terminal_id with
      | some node =>
        if hasAnyConnectedOutput node then
          let (chain_loras, chain_titles) := collect_lora_stack_chain nm lm terminal_id
          if chain_loras ≠ [] then
            let c : Chain :=
              { titles := chain_titles
                loras := chain_loras
                terminal_title := node.title
                source_id := terminal_id }
            chains ++ [c]
          else chains
        else chains
      | none => chains)
    []

/-- Stable insertion preserving the relative order of equal keys,
matching Python's stable `list.sort(key=source_id)`. -/
def insertBySourceId (x : Chain) : List Chain → List Chain
  | [] => [x]
  | y :: ys =>
    if y.source_id ≤ x.source_id then y :: insertBySourceId x ys
    else x :: y :: ys

def sortChainsBySourceId (l : List Chain) : List Chain :=
  l.foldl (fun acc x => insertBySourceId x acc) []

/-! ### Lane classification (source lines 1748-1888) -/

/-- `' '.join(all_titles).lower()` over chain titles plus the terminal
title. -/
def chainAllTitlesLower (c : Chain) : String :=
  pyLower (String.intercalate " " (c.titles ++ [c.terminal_title]))

/-- Priority-1 "high" signal: the whole word in titles / input name /
input label, or `highnoise` as a substring of the separator-stripped
titles. -/
def chain_has_high (c : Chain) : Bool :=
  searchWord "high" (chainAllTitlesLower c) ||
  searchWord "high" (pyLower c.input_name) ||
  searchWord "high" (pyLower c.input_label) ||
  pyIn "highnoise" (removeChars ['_', '-', ' '] (chainAllTitlesLower c))

/-- Priority-1 "low" signal, symmetric to `chain_has_high`. -/
def chain_has_low (c : Chain) : Bool :=
  searchWord "low" (chainAllTitlesLower c) ||
  searchWord "low" (pyLower c.input_name) ||
  searchWord "low" (pyLower c.input_label) ||
  pyIn "lownoise" (removeChars ['_', '-', ' '] (chainAllTitlesLower c))

/-- The "high" token patterns of the filename vote. -/
def hasHighPattern (n : String) : Bool :=
  pyIn "_high" n || pyIn "-high" n || pyIn "high_" n || pyIn "_h." n || pyIn "_h_" n

/-- The "low" token patterns of the filename vote. -/
def hasLowPattern (n : String) : Bool :=
  pyIn "_low" n || pyIn "-low" n || pyIn "low_" n || pyIn "_l." n || pyIn "_l_" n

/-- The filename vote over the chain's active adapters, skipping
blacklisted names.  The source increments the low counter twice per
low-pattern adapter (`low_count += 1` appears on two consecutive lines,
1809-1810); the embedding reproduces that. -/
def voteCounts (bl : Blacklist) (active_loras : List Lora) : Nat × Nat :=
  active_loras.foldl
    (fun (counts : Nat × Nat) lora =>
      let (high_count, low_count) := counts
      if is_lora_blacklisted bl lora.name then counts
      else
        let lora_name_lower := pyLower lora.name
        let high_count :=
          if hasHighPattern lora_name_lower then high_count + 1 else high_count
        let low_count :=
          if hasLowPattern lora_name_lower then low_count + 1 + 1 else low_count
        (high_count, low_count))
    (0, 0)

/-- The two lanes plus their dedup sets.  In the workflow path all four
start empty and the state then flows through the API and inline stages. -/
structure LaneState where
  loras_a : List Lora := []
  loras_b : List Lora := []
  lora_names_seen_a : List String := []
  lora_names_seen_b : List String := []
deriving Repr, DecidableEq

/-- One lane-append loop of the assignment stage: keep active,
non-blacklisted adapters whose exact name is unseen. -/
def appendLane (bl : Blacklist) (loras : List Lora) (lane : List Lora)
    (seen : List String) : List Lora × List String :=
  loras.foldl
    (fun (acc : List Lora × List String) lora =>
      let (lane, seen) := acc
      if !lora.active then acc
      else if is_lora_blacklisted bl lora.name then acc
      else if lora.name ∈ seen then acc
      else (lane ++ [lora], seen ++ [lora.name]))
    (lane, seen)

/-- Classify one chain (at position `i` of the sorted list) and append
its adapters to the chosen lane. -/
def assignStep (bl : Blacklist) (st : LaneState) (i : Nat) (c : Chain) : LaneState :=
  let chainHigh := chain_has_high c
  let chainLow := chain_has_low c
  let active_loras := c.loras.filter (fun l => l.active)
  let counts := voteCounts bl active_loras
  let high_count := counts.1
  let low_count := counts.2
  let has_high := chainHigh || (!chainLow && decide (high_count > low_count))
  let has_low := chainLow || (!chainHigh && decide (low_count > high_count))
  if has_high && !has_low then
    let (lane, seen) := appendLane bl c.loras st.loras_a st.lora_names_seen_a
    { st with loras_a := lane, lora_names_seen_a := seen }
  else if has_low && !has_high then
    let (lane, seen) := appendLane bl c.loras st.loras_b st.lora_names_seen_b
    { st with loras_b := lane, lora_names_seen_b := seen }
  else if i = 0 then
    let (lane, seen) := appendLane bl c.loras st.loras_a st.lora_names_seen_a
    { st with loras_a := lane, lora_names_seen_a := seen }
  else if i = 1 then
    let (lane, seen) := appendLane bl c.loras st.loras_b st.lora_names_seen_b
    { st with loras_b := lane, lora_names_seen_b := seen }
  else
    let (lane, seen) := appendLane bl c.loras st.loras_a st.lora_names_seen_a
    { st with loras_a := lane, lora_names_seen_a := seen }

/-- The whole assignment loop over the sorted chains. -/
def assignChains (bl : Blacklist) (chains : List Chain) : LaneState :=
  chains.enum.foldl (fun st ic => assignStep bl st ic.1 ic.2) {}

/-! Specification-side views of the assignment decision, used to state
and prove the lane laws; `assignStep_eq` below ties them to the code. -/

/-- The combined "high" verdict of one chain (structural signal first,
filename vote as tiebreaker), as computed by the assignment stage. -/
def chainFinalHigh (bl : Blacklist) (c : Chain) : Bool :=
  chain_has_high c ||
    (!chain_has_low c &&
      decide ((voteCounts bl (c.loras.filter (fun l => l.active))).1 >
        (voteCounts bl (c.loras.filter (fun l => l.active))).2))

/-- The combined "low" verdict of one chain. -/
def chainFinalLow (bl : Blacklist) (c : Chain) : Bool :=
  chain_has_low c ||
    (!chain_has_high c &&
      decide ((voteCounts bl (c.loras.filter (fun l => l.active))).2 >
        (voteCounts bl (c.loras.filter (fun l => l.active))).1))

/-- Which lane the chain at position `i` is sent to (`true` = lane A). -/
def chainToLaneA (bl : Blacklist) (i : Nat) (c : Chain) : Bool :=
  if chainFinalHigh bl c && !chainFinalLow bl c then true
  else if chainFinalLow bl c && !chainFinalHigh bl c then false
  else if i = 0 then true
  else if i = 1 then false
  else true

/-- The adapters of a chain that survive the lane-append filters. -/
def filteredLoras (bl : Blacklist) (c : Chain) : List Lora :=
  c.loras.filter (fun l => l.active && !is_lora_blacklisted bl l.name)

/-- First-occurrence dedup by exact name against a seen set, threading
the seen set. -/
def dedupGo (seen : List String) : List Lora → List Lora × List String
  | [] => ([], seen)
  | l :: rest =>
    if l.name ∈ seen then dedupGo seen rest
    else
      let r := dedupGo (seen ++ [l.name]) rest
      (l :: r.1, r.2)

/-- The adapters destined for one lane, in chain-processing order,
already filtered for activity and the blacklist (`k` is the index of the
first chain). -/
def laneStream (bl : Blacklist) (toA : Bool) : Nat → List Chain → List Lora
  | _, [] => []
  | k, c :: rest =>
    (if chainToLaneA bl k c = toA then filteredLoras bl c else []) ++
      laneStream bl toA (k + 1) rest

/-! ### API-format data (`convert_workflow_to_prompt_format`, source
lines 1994-2052, and the API loop, lines 1894-1945)

API entries are keyed by `str(node.id)` in the source and converted back
with `int` where looked up; the embedding keys them by the id itself. -/

/-- One entry of the API/prompt format: a class tag and an input dict. -/
structure APINode where
  class_type : String
  inputs : List (String × WValue)

/-- First string widget longer than `n` characters, kept raw (the
conversion stores the value itself, without stripping). -/
def firstLongStrRaw (n : Nat) : List WValue → Option WValue
  | [] => none
  | .str v :: rest => if v.length > n then some (.str v) else firstLongStrRaw n rest
  | _ :: rest => firstLongStrRaw n rest

/-- `convert_workflow_to_prompt_format` on a workflow document. -/
def convert_workflow_to_prompt_format (wf : Workflow) : List (Nat × APINode) :=
  (wf.nodes ++ wf.subgraphNodes).foldl
    (fun result node =>
      let class_type := node.type
      let widgets_values := node.widgets_values
      let inputs : List (String × WValue) :=
        if class_type ∈ ["CLIPTextEncode", "CLIPTextEncodeSDXL"] then
          match widgets_values.head? with
          | some v => [("text", v)]
          | none => []
        else if class_type ∈ ["LoraLoader", "LoraLoaderModelOnly"] then
          (match widgets_values[0]? with
           | some v => [("lora_name", v)]
           | none => []) ++
          (match widgets_values[1]? with
           | some v => [("strength_model", v)]
           | none => []) ++
          (match widgets_values[2]? with
           | some v => [("strength_clip", v)]
           | none => [])
        else if class_type ∈ ["PromptManager", "PromptManagerAdvanced"] then
          match firstLongStrRaw 20 widgets_values with
          | some v => [("text", v)]
          | none => []
        else []
      mapInsert result node.id { class_type := class_type, inputs := inputs })
    []

/-- One step of the API loop: baked encoder texts are appended — always
as positive — and, unless chains already supplied adapters, standard
loader entries are decoded into lane A (deduplicated by the full path
string, while the stored name is the normalized basename). -/
def apiStep (bl : Blacklist) (nm : NodeMap) (skip_api_lora_extraction : Bool)
    (st : List String × List Lora × List String) (entry : Nat × APINode) :
    List String × List Lora × List String :=
  let (positive_prompts, loras_a, lora_names_seen_a) := st
  let (node_id, node_data) := entry
  let class_type := node_data.class_type
  let inputs := node_data.inputs
  if class_type ∈ ["CLIPTextEncode", "CLIPTextEncodeSDXL", "CLIPTextEncodeFlux"] then
    match dictGet inputs "text" (.str "") with
    | .str text =>
      if text ≠ "" then (positive_prompts ++ [text], loras_a, lora_names_seen_a)
      else st
    | _ => st
  else if class_type ∈ ["PromptManager", "PromptManagerAdvanced"] then
    match dictGet inputs "text" (.str "") with
    | .str text =>
      if text ≠ "" then (positive_prompts ++ [text], loras_a, lora_names_seen_a)
      else st
    | _ => st
  else if class_type ∈ ["LoraLoader", "LoraLoaderModelOnly"]
      ∧ !skip_api_lora_extraction then
    -- connectivity gate: skipped when the node map is empty or the node
    -- is missing from it (both fall through to the append in the source)
    let connected_ok :=
      if !nm.isEmpty then
        match mapLookup nm node_id with
        | some node =>
          node.outputs.any fun output =>
            decide (output.type = "MODEL") &&
            (match output.links with
             | some ls => !ls.isEmpty
             | none => false)
        | none => true
      else true
    if !connected_ok then st
    else
      match dictGet inputs "lora_name" (.str "") with
      | .str lora_name =>
        if lora_name ≠ "" ∧ lora_name ∉ lora_names_seen_a then
          let lora_basename := normLoraName lora_name
          if is_lora_blacklisted bl lora_basename then st
          else
            let model_strength := pyFloatOf
              (dictGet inputs "strength_model" (dictGet inputs "strength" (.num ⟨1, 0⟩)))
            let clip_strength :=
              match (inputs.find? (fun p => p.1 = "strength_clip")).map (fun p => p.2) with
              | some v => pyFloatOf v
              | none => model_strength
            let l : Lora :=
              { name := lora_basename
                path := lora_name
                model_strength := model_strength
                clip_strength := clip_strength
                active := true }
            (positive_prompts, loras_a ++ [l], lora_names_seen_a ++ [lora_name])
        else st
      | _ => st
  else st

/-! ### Inline adapter syntax (source lines 1947-1982)

The scanner mirrors `re` on `<lora:([^:>]+):([^:>]+)(?::([^>]+))?>`:
at each position the leftmost match is taken (the character classes make
the regex's greedy matching deterministic, so no backtracking arises) and
scanning resumes after it, as `finditer`/`sub` do. -/

/-- The three capture groups of one inline match. -/
structure LoraTag where
  g1 : String
  g2 : String
  g3 : Option String
deriving Repr, DecidableEq

/-- Try to match the tag pattern at the head of the text; on success
return the groups and the remaining text. -/
def matchTagAt (l : List Char) : Option (LoraTag × List Char) :=
  if "<lora:".data.isPrefixOf l then
    let l1 := l.drop 6
    let run1 := l1.takeWhile (fun c => c ≠ ':' ∧ c ≠ '>')
    if run1 ≠ [] then
      match l1.drop run1.length with
      | ':' :: l2 =>
        let run2 := l2.takeWhile (fun c => c ≠ ':' ∧ c ≠ '>')
        if run2 ≠ [] then
          match l2.drop run2.length with
          | '>' :: rest => some (⟨⟨run1⟩, ⟨run2⟩, none⟩, rest)
          | ':' :: l3 =>
            let run3 := l3.takeWhile (fun c => c ≠ '>')
            if run3 ≠ [] then
              match l3.drop run3.length with
              | '>' :: rest => some (⟨⟨run1⟩, ⟨run2⟩, some ⟨run3⟩⟩, rest)
              | _ => none
            else none
          | _ => none
        else none
      | _ => none
    else none
  else none

/-- Scan the whole text: the matches in order, and the text with every
matched span removed (`re.sub(pattern, '', s)`).  The fuel equals the
text length; every step consumes at least one character, so it never
runs out. -/
def scanLoraTagsGo : Nat → List Char → List LoraTag × List Char
  | 0, l => ([], l)
  | _ + 1, [] => ([], [])
  | fuel + 1, c :: rest =>
    match matchTagAt (c :: rest) with
    | some (tag, after) =>
      let (tags, txt) := scanLoraTagsGo fuel after
      (tag :: tags, txt)
    | none =>
      let (tags, txt) := scanLoraTagsGo fuel rest
      (tags, c :: txt)

def scanLoraTags (s : String) : List LoraTag × String :=
  let r := scanLoraTagsGo s.data.length s.data
  (r.1, ⟨r.2⟩)

/-- Process one inline match: blacklist gate, exact-name dedup against
lane A, model strength from group 2 and clip strength defaulting to it. -/
def inlineLoraStep (bl : Blacklist) (st : List Lora × List String)
    (m : LoraTag) : List Lora × List String :=
  let (loras_a, lora_names_seen_a) := st
  let lora_name := pyStrip m.g1
  if is_lora_blacklisted bl lora_name then st
  else if lora_name ∈ lora_names_seen_a then st
  else
    let model_strength := if m.g2 ≠ "" then pyFloatOfStr m.g2 else ⟨1, 0⟩
    let clip_strength :=
      match m.g3 with
      | some g3 => if g3 ≠ "" then pyFloatOfStr g3 else model_strength
      | none => model_strength
    let l : Lora :=
      { name := lora_name
        path := ""
        model_strength := model_strength
        clip_strength := clip_strength
        active := true }
    (loras_a ++ [l], lora_names_seen_a ++ [lora_name])

/-! ### Text cleanup and the parse entry points
(source lines 1484-1638, 1968-1991) -/

/-- Strip inline tags, trim, and collapse whitespace runs to single
spaces (source lines 1972-1973). -/
def cleanPrompt (p : String) : String :=
  collapseWs (pyStrip (scanLoraTags p).2)

/-- Keep the non-empty cleaned prompts, in order. -/
def cleanPrompts (prompts : List String) : List String :=
  prompts.foldl
    (fun acc p =>
      let cleaned := cleanPrompt p
      if cleaned ≠ "" then acc ++ [cleaned] else acc)
    []

/-- The final resolution record. -/
structure ParseResult where
  positive_prompt : String
  negative_prompt : String
  loras_a : List Lora
  loras_b : List Lora
deriving Repr, DecidableEq

/-- The polarity decision for one prompt-encoder node (source lines
1577-1589): the downstream-link signal decides first; with no link
signal, a case-insensitive title check; with neither, positive. -/
def clipPolarity (wf : Workflow) (nm : NodeMap) (node_id : Nat)
    (title : String) : String :=
  match determine_clip_text_encode_type wf nm node_id with
  | some t => t
  | none =>
    let title_lower := pyLower title
    if pyIn "negative" title_lower then "negative"
    else if pyIn "positive" title_lower then "positive"
    else "positive"

/-- The workflow-node prompt pass (source lines 1564-1638): polarity via
`clipPolarity`; baked texts are length-gated at 10 characters; a linked
`text` input overrides them through the text traversal. -/
def workflowPromptStep (wf : Workflow) (nm : NodeMap) (lm : LinkMap)
    (st : List String × List String) (node : WNode) :
    List String × List String :=
  let (positive_prompts, negative_prompts) := st
  let node_type := node.type
  let title := node.title
  if node_type ∈ ["CLIPTextEncode", "CLIPTextEncodeSDXL", "CLIPTextEncodeFlux"] then
    let connection_type := clipPolarity wf nm node.id title
    let text_found0 := (firstLongStr 10 node.widgets_values).getD ""
    let text_found := node.inputs.foldl
      (fun text_found inp =>
        if inp.name = "text" ∧ linkTruthy inp.link then
          match inp.link.bind (mapLookup lm) with
          | some link_info =>
            let traversed := (traverse_to_find_text nm lm link_info.source_node
              link_info.source_slot [] 20).1
            if traversed ≠ "" then traversed else text_found
          | none => text_found
        else text_found)
      text_found0
    if text_found ≠ "" then
      if connection_type = "negative" then
        (positive_prompts, negative_prompts ++ [text_found])
      else (positive_prompts ++ [text_found], negative_prompts)
    else st
  else if node_type ∈ ["PromptManager", "PromptManagerAdvanced"] then
    match firstLongStr 20 node.widgets_values with
    | some s => (positive_prompts ++ [s], negative_prompts)
    | none => st
  else if node_type = "PrimitiveStringMultiline" then
    let title_lower := pyLower title
    let is_negative := pyIn "negative" title_lower
    match firstLongStr 20 node.widgets_values with
    | some s =>
      if is_negative then (positive_prompts, negative_prompts ++ [s])
      else (positive_prompts ++ [s], negative_prompts)
    | none => st
  else st

/-- `parse_workflow_for_prompts(None, workflow_data)`: the graph-resolver
entry point, with the module-level blacklist as an explicit parameter. -/
def parse_workflow_for_prompts (bl : Blacklist) (wf : Workflow) : ParseResult :=
  let nm := build_node_map wf
  let lm := build_link_map wf
  let data := convert_workflow_to_prompt_format wf
  let all_workflow_nodes := wf.nodes ++ wf.subgraphNodes
  let prompts0 := all_workflow_nodes.foldl (workflowPromptStep wf nm lm) ([], [])
  let negative_prompts := prompts0.2
  let lora_chains :=
    sortChainsBySourceId (buildModelChains wf nm lm ++ buildStackChains wf nm lm)
  let st := assignChains bl lora_chains
  let skip_api_lora_extraction := !lora_chains.isEmpty
  let api := data.foldl (apiStep bl nm skip_api_lora_extraction)
    (prompts0.1, st.loras_a, st.lora_names_seen_a)
  let positive_prompts := api.1
  let loras_a :=
    if !skip_api_lora_extraction then
      let all_prompts := String.intercalate " " (positive_prompts ++ negative_prompts)
      (((scanLoraTags all_prompts).1).foldl (inlineLoraStep bl)
        (api.2.1, api.2.2)).1
    else api.2.1
  let clean_positive := cleanPrompts positive_prompts
  let clean_negative := cleanPrompts negative_prompts
  { positive_prompt :=
      if clean_positive ≠ [] then String.intercalate ", " clean_positive else ""
    negative_prompt :=
      if clean_negative ≠ [] then String.intercalate ", " clean_negative else ""
    loras_a := loras_a
    loras_b := st.loras_b }

/-- `parse_workflow_for_prompts(prompt_data, None)`: the API-format-only
entry point (no node/link maps, no workflow pass, no chains; the API loop
and the inline extraction do all the work). -/
def parse_api_for_prompts (bl : Blacklist) (data : List (Nat × APINode)) :
    ParseResult :=
  let api := data.foldl (apiStep bl [] false) ([], [], [])
  let positive_prompts := api.1
  let negative_prompts : List String := []
  let loras_a :=
    let all_prompts := String.intercalate " " (positive_prompts ++ negative_prompts)
    (((scanLoraTags all_prompts).1).foldl (inlineLoraStep bl)
      (api.2.1, api.2.2)).1
  let clean_positive := cleanPrompts positive_prompts
  let clean_negative := cleanPrompts negative_prompts
  { positive_prompt :=
      if clean_positive ≠ [] then String.intercalate ", " clean_positive else ""
    negative_prompt :=
      if clean_negative ≠ [] then String.intercalate ", " clean_negative else ""
    loras_a := loras_a
    loras_b := [] }

/-! ### The public extract operation (`PromptExtractor.extract`, source
lines 2152-2343, prompt-string dataflow)

The file and tensor plumbing is host I/O; the string dataflow is: both
prompts start as `""`, a successfully parsed metadata record overwrites
them (`parsed[...] or ""`), and an empty string is finally replaced by a
single space (lines 2333-2338). -/

def extractPromptStrings (parsed? : Option ParseResult) : String × String :=
  let positive_prompt :=
    match parsed? with
    | some parsed => if parsed.positive_prompt ≠ "" then parsed.positive_prompt else ""
    | none => ""
  let negative_prompt :=
    match parsed? with
    | some parsed => if parsed.negative_prompt ≠ "" then parsed.negative_prompt else ""
    | none => ""
  (if positive_prompt = "" then " " else positive_prompt,
   if negative_prompt = "" then " " else negative_prompt)

/-! ### Concrete fixtures used by the claim theorems below -/

/-- An always-active adapter with unit strengths, for chain fixtures. -/
def mkPlainLora (n : String) : Lora :=
  { name := n, path := n, model_strength := ⟨1, 0⟩, clip_strength := ⟨1, 0⟩,
    active := true }

/-- A chain with one neutrally named adapter and no lane signal. -/
def chainC1plain : Chain :=
  { titles := [], loras := [mkPlainLora "style"], terminal_title := "", source_id := 1 }

/-- A chain with two high-named and one low-named active adapters and no
structural signal: the claimed majority is 2-1 for "high". -/
def chainC1vote : Chain :=
  { titles := [],
    loras := [mkPlainLora "a_high", mkPlainLora "b_high", mkPlainLora "c_low"],
    terminal_title := "", source_id := 2 }

/-- One loader chain whose two loaders differ only in name case:
`Style.safetensors` feeds `style.safetensors` which feeds a sampler. -/
def wfC2dup : Workflow :=
  { nodes := [
      { id := 1, type := "LoraLoader",
        widgets_values := [.str "Style.safetensors", .num ⟨8, 1⟩],
        outputs := [{ type := "MODEL", links := some [1] }] },
      { id := 2, type := "LoraLoader",
        widgets_values := [.str "style.safetensors", .num ⟨7, 1⟩],
        inputs := [{ name := "model", type := "MODEL", link := some 1 }],
        outputs := [{ type := "MODEL", links := some [2] }] },
      { id := 3, type := "KSampler",
        inputs := [{ name := "model", type := "MODEL", link := some 2 }] }],
    links := [
      { id := 1, source_node := 1, source_slot := 0, dest_node := 2, dest_slot := 0 },
      { id := 2, source_node := 2, source_slot := 0, dest_node := 3, dest_slot := 0 }] }

/-- A chain with no lane signal at all. -/
def chainC3plain : Chain :=
  { titles := [], loras := [mkPlainLora "base_style"], terminal_title := "",
    source_id := 1 }

/-- A chain whose only title is "thigh noise": the word "high" occurs
only inside the unrelated token "thigh". -/
def chainC3thigh : Chain :=
  { titles := ["thigh noise"], loras := [mkPlainLora "accent"], terminal_title := "",
    source_id := 2 }

/-- A workflow with one loader chain and one prompt-encoder whose baked
text carries an inline adapter reference. -/
def wfC4chain : Workflow :=
  { nodes := [
      { id := 1, type := "LoraLoader",
        widgets_values := [.str "style.safetensors", .num ⟨8, 1⟩],
        outputs := [{ type := "MODEL", links := some [1] }] },
      { id := 2, type := "KSampler",
        inputs := [{ name := "model", type := "MODEL", link := some 1 }] },
      { id := 4, type := "CLIPTextEncode",
        widgets_values := [.str "a dog <lora:extra:0.5> runs"] }],
    links := [
      { id := 1, source_node := 1, source_slot := 0, dest_node := 2, dest_slot := 0 }] }

/-- A chain carrying a structural "high" signal. -/
def chainC5high : Chain :=
  { titles := ["high pass"], loras := [mkPlainLora "hero"], terminal_title := "",
    source_id := 1 }

/-- A signal-free chain processed after `chainC5high`. -/
def chainC5plain : Chain :=
  { titles := [], loras := [mkPlainLora "plain_extra"], terminal_title := "",
    source_id := 2 }

/-- The spec's Scenario-1 fixture: one encoder titled "Negative Prompt"
holding "blurry", one untitled encoder holding "a cat", no links. -/
def wfC8fixture : Workflow :=
  { nodes := [
      { id := 1, type := "CLIPTextEncode", title := "Negative Prompt",
        widgets_values := [.str "blurry"] },
      { id := 2, type := "CLIPTextEncode",
        widgets_values := [.str "a cat"] }] }

/-- Scenario-5 input in API format: one encoder whose text carries an
inline adapter reference. -/
def dataS5 : List (Nat × APINode) :=
  [(1, { class_type := "CLIPTextEncode",
         inputs := [("text", .str "a dog <lora:pup_style:0.6>")] })]

/-- The adapter record Scenario 5 expects in lane A. -/
def pupLora : Lora :=
  { name := "pup_style", path := "",
    model_strength := ⟨6, 1⟩, clip_strength := ⟨6, 1⟩, active := true }

/-- The record the inline extractor builds from a match whose strength
group is non-empty and whose clip group is absent. -/
def inlineRecordOf (m : LoraTag) : Lora :=
  { name := pyStrip m.g1, path := "",
    model_strength := pyFloatOfStr m.g2, clip_strength := pyFloatOfStr m.g2,
    active := true }

/-- An inline match with surrounding whitespace in the name and no clip
group. -/
def tagW4 : LoraTag := { g1 := " pup ", g2 := "2", g3 := none }

/-- A high-signalled witness chain. -/
def chainW3high : Chain :=
  { titles := ["high stage"], loras := [mkPlainLora "wit_a"], terminal_title := "",
    source_id := 1 }

/-- A low-signalled witness chain. -/
def chainW3low : Chain :=
  { titles := ["low stage"], loras := [mkPlainLora "wit_b"], terminal_title := "",
    source_id := 2 }

/-- Three signal-free witness chains. -/
def chainW5a : Chain :=
  { titles := [], loras := [mkPlainLora "wit_c"], terminal_title := "", source_id := 1 }

def chainW5b : Chain :=
  { titles := [], loras := [mkPlainLora "wit_d"], terminal_title := "", source_id := 2 }

def chainW5c : Chain :=
  { titles := [], loras := [mkPlainLora "wit_e"], terminal_title := "", source_id := 3 }

/-- A one-loader workflow whose lane A holds a single `style` adapter. -/
def wfC6simple : Workflow :=
  { nodes := [
      { id := 1, type := "LoraLoader",
        widgets_values := [.str "style.safetensors", .num ⟨8, 1⟩],
        outputs := [{ type := "MODEL", links := some [1] }] },
      { id := 2, type := "KSampler",
        inputs := [{ name := "model", type := "MODEL", link := some 1 }] }],
    links := [
      { id := 1, source_node := 1, source_slot := 0, dest_node := 2, dest_slot := 0 }] }

/-- The adapter record `wfC6simple` resolves into lane A. -/
def loraC6style : Lora :=
  { name := "style", path := "style.safetensors",
    model_strength := ⟨8, 1⟩, clip_strength := ⟨8, 1⟩, active := true }

/-- A two-encoder graph whose text links form a cycle. -/
def wfTextCycle : Workflow :=
  { nodes := [
      { id := 7, type := "CLIPTextEncode",
        inputs := [{ name := "text", link := some 9 }] },
      { id := 8, type := "CLIPTextEncode",
        inputs := [{ name := "text", link := some 10 }] }],
    links := [
      { id := 9, source_node := 8, source_slot := 0, dest_node := 7, dest_slot := 0 },
      { id := 10, source_node := 7, source_slot := 0, dest_node := 8, dest_slot := 0 }] }

/-- A loader whose only MODEL output has a `None` link list. -/
def loaderDisc : WNode :=
  { id := 5, type := "LoraLoader",
    widgets_values := [.str "solo.safetensors", .num ⟨5, 1⟩],
    outputs := [{ type := "MODEL", links := none }] }

/-- A resolution result with no positive text. -/
def emptyPositiveResult : ParseResult :=
  { positive_prompt := "", negative_prompt := "night", loras_a := [], loras_b := [] }

/-! ### Supporting lemmas

The lane-append loop is a first-occurrence dedup (`dedupGo`) over the
active, non-blacklisted adapters, and the whole assignment loop realizes
`dedupGo` over the per-lane streams; the lemmas below establish this and
the resulting dedup/blacklist invariants. -/

theorem appendLane_cons (bl : Blacklist) (l : Lora) (rest : List Lora)
    (lane : List Lora) (seen : List String) :
    appendLane bl (l :: rest) lane seen =
      if !l.active then appendLane bl rest lane seen
      else if is_lora_blacklisted bl l.name then appendLane bl rest lane seen
      else if l.name ∈ seen then appendLane bl rest lane seen
      else appendLane bl rest (lane ++ [l]) (seen ++ [l.name]) := by
  simp only [appendLane, List.foldl_cons]
  split_ifs <;> rfl

theorem appendLane_eq (bl : Blacklist) (loras : List Lora) :
    ∀ (lane : List Lora) (seen : List String),
    appendLane bl loras lane seen =
      (lane ++ (dedupGo seen (loras.filter
          (fun l => l.active && !is_lora_blacklisted bl l.name))).1,
       (dedupGo seen (loras.filter
          (fun l => l.active && !is_lora_blacklisted bl l.name))).2) := by
  induction loras with
  | nil => intro lane seen; simp [appendLane, dedupGo]
  | cons l rest ih =>
    intro lane seen
    rw [appendLane_cons]
    by_cases ha : l.active
    · by_cases hb : is_lora_blacklisted bl l.name
      · simp [ha, hb, List.filter_cons, ih]
      · by_cases hs : l.name ∈ seen
        · simp [ha, hb, hs, List.filter_cons, ih, dedupGo]
        · simp [ha, hb, hs, List.filter_cons, ih, dedupGo]
    · simp [ha, List.filter_cons, ih]

theorem dedupGo_append (xs : List Lora) :
    ∀ (seen : List String) (ys : List Lora),
    dedupGo seen (xs ++ ys) =
      ((dedupGo seen xs).1 ++ (dedupGo (dedupGo seen xs).2 ys).1,
       (dedupGo (dedupGo seen xs).2 ys).2) := by
  induction xs with
  | nil => intro seen ys; simp [dedupGo]
  | cons l rest ih =>
    intro seen ys
    by_cases hs : l.name ∈ seen
    · simp [dedupGo, hs, ih]
    · simp [dedupGo, hs, ih]

theorem assignStep_eq (bl : Blacklist) (st : LaneState) (i : Nat) (c : Chain) :
    assignStep bl st i c =
      if chainToLaneA bl i c then
        { st with
          loras_a := (appendLane bl c.loras st.loras_a st.lora_names_seen_a).1
          lora_names_seen_a := (appendLane bl c.loras st.loras_a st.lora_names_seen_a).2 }
      else
        { st with
          loras_b := (appendLane bl c.loras st.loras_b st.lora_names_seen_b).1
          lora_names_seen_b := (appendLane bl c.loras st.loras_b st.lora_names_seen_b).2 } := by
  simp only [assignStep, chainToLaneA, chainFinalHigh, chainFinalLow]
  split_ifs <;> first | rfl | simp_all

theorem assignChains_foldFrom (bl : Blacklist) (chains : List Chain) :
    ∀ (k : Nat) (st : LaneState),
    (List.enumFrom k chains).foldl (fun st ic => assignStep bl st ic.1 ic.2) st =
      { loras_a := st.loras_a ++ (dedupGo st.lora_names_seen_a (laneStream bl true k chains)).1
        lora_names_seen_a := (dedupGo st.lora_names_seen_a (laneStream bl true k chains)).2
        loras_b := st.loras_b ++ (dedupGo st.lora_names_seen_b (laneStream bl false k chains)).1
        lora_names_seen_b := (dedupGo st.lora_names_seen_b (laneStream bl false k chains)).2 } := by
  induction chains with
  | nil => intro k st; simp [laneStream, dedupGo]
  | cons c rest ih =>
    intro k st
    rw [List.enumFrom_cons, List.foldl_cons]
    show (List.enumFrom (k + 1) rest).foldl (fun st ic => assignStep bl st ic.1 ic.2)
      (assignStep bl st k c) = _
    rw [ih, assignStep_eq]
    by_cases hA : chainToLaneA bl k c
    · simp [hA, laneStream, filteredLoras, appendLane_eq, dedupGo_append, List.append_assoc]
    · simp [hA, laneStream, filteredLoras, appendLane_eq, dedupGo_append, List.append_assoc]

theorem assignChains_eq (bl : Blacklist) (chains : List Chain) :
    assignChains bl chains =
      { loras_a := (dedupGo [] (laneStream bl true 0 chains)).1
        lora_names_seen_a := (dedupGo [] (laneStream bl true 0 chains)).2
        loras_b := (dedupGo [] (laneStream bl false 0 chains)).1
        lora_names_seen_b := (dedupGo [] (laneStream bl false 0 chains)).2 } := by
  have h := assignChains_foldFrom bl chains 0 {}
  simpa [assignChains, List.enum] using h

theorem dedupGo_subset (l : List Lora) :
    ∀ (seen : List String) (x : Lora), x ∈ (dedupGo seen l).1 → x ∈ l := by
  induction l with
  | nil => intro seen x h; simp [dedupGo] at h
  | cons a rest ih =>
    intro seen x h
    by_cases hn : a.name ∈ seen
    · simp only [dedupGo, if_pos hn] at h
      exact List.mem_cons_of_mem _ (ih seen x h)
    · simp only [dedupGo, if_neg hn] at h
      rcases List.mem_cons.mp h with h1 | h2
      · exact h1 ▸ List.mem_cons_self _ _
      · exact List.mem_cons_of_mem _ (ih _ x h2)

theorem dedupGo_names_not_seen (l : List Lora) :
    ∀ (seen : List String) (n : String),
      n ∈ (dedupGo seen l).1.map (fun x => x.name) → n ∉ seen := by
  induction l with
  | nil => intro seen n h; simp [dedupGo] at h
  | cons a rest ih =>
    intro seen n h
    by_cases hn : a.name ∈ seen
    · simp only [dedupGo, if_pos hn] at h
      exact ih seen n h
    · simp only [dedupGo, if_neg hn, List.map_cons] at h
      rcases List.mem_cons.mp h with h1 | h2
      · exact h1 ▸ hn
      · intro hs
        exact ih _ n h2 (List.mem_append_left _ hs)

theorem dedupGo_names_nodup (l : List Lora) :
    ∀ (seen : List String), ((dedupGo seen l).1.map (fun x => x.name)).Nodup := by
  induction l with
  | nil => intro seen; simp [dedupGo]
  | cons a rest ih =>
    intro seen
    by_cases hn : a.name ∈ seen
    · simp only [dedupGo, if_pos hn]; exact ih seen
    · simp only [dedupGo, if_neg hn, List.map_cons]
      refine List.nodup_cons.mpr ⟨?_, ih _⟩
      intro hmem
      exact dedupGo_names_not_seen rest _ a.name hmem
        (List.mem_append_right _ (List.mem_singleton.mpr rfl))

theorem dedupGo_find? (l : List Lora) :
    ∀ (seen : List String) (n : String), n ∉ seen →
      (dedupGo seen l).1.find? (fun x => x.name = n) = l.find? (fun x => x.name = n) := by
  induction l with
  | nil => intro seen n _; simp [dedupGo]
  | cons a rest ih =>
    intro seen n hns
    by_cases hn : a.name ∈ seen
    · have hne : ¬(a.name = n) := fun h => hns (h ▸ hn)
      simp only [dedupGo, if_pos hn]
      rw [List.find?_cons_of_neg _ (by simpa using hne)]
      exact ih seen n hns
    · simp only [dedupGo, if_neg hn]
      by_cases he : a.name = n
      · rw [List.find?_cons_of_pos _ (by simpa using he),
          List.find?_cons_of_pos _ (by simpa using he)]
      · rw [List.find?_cons_of_neg _ (by simpa using he),
          List.find?_cons_of_neg _ (by simpa using he)]
        refine ih _ n ?_
        intro hmem
        rcases List.mem_append.mp hmem with h1 | h2
        · exact hns h1
        · exact he (List.mem_singleton.mp h2).symm

theorem dedupGo_names_mem (l : List Lora) (seen : List String) (n : String)
    (hmem : n ∈ l.map (fun x => x.name)) (hns : n ∉ seen) :
    n ∈ (dedupGo seen l).1.map (fun x => x.name) := by
  rcases List.mem_map.mp hmem with ⟨x, hx, hxn⟩
  have hsome : (l.find? (fun y => y.name = n)).isSome := by
    rw [List.find?_isSome]
    exact ⟨x, hx, by simpa using hxn⟩
  rw [← dedupGo_find? l seen n hns] at hsome
  rcases Option.isSome_iff_exists.mp hsome with ⟨y, hy⟩
  have hyl := List.find?_some hy
  have hym := List.mem_of_find?_eq_some hy
  exact List.mem_map.mpr ⟨y, hym, by simpa using hyl⟩

theorem laneStream_mem (bl : Blacklist) (toA : Bool) (chains : List Chain) :
    ∀ (k i : Nat) (c : Chain), chains[i]? = some c →
      chainToLaneA bl (k + i) c = toA →
      ∀ x ∈ filteredLoras bl c, x ∈ laneStream bl toA k chains := by
  induction chains with
  | nil => intro k i c h; simp at h
  | cons c0 rest ih =>
    intro k i c h hA x hx
    cases i with
    | zero =>
      simp only [List.getElem?_cons_zero, Option.some.injEq] at h
      subst h
      simp only [Nat.add_zero] at hA
      simp only [laneStream, hA, if_pos rfl]
      exact List.mem_append_left _ (by simpa [hA] using hx)
    | succ i =>
      simp only [List.getElem?_cons_succ] at h
      have := ih (k + 1) i c h (by simpa [Nat.add_assoc, Nat.add_comm 1 i] using hA) x hx
      exact List.mem_append_right _ this

theorem laneStream_filtered (bl : Blacklist) (toA : Bool) (chains : List Chain) :
    ∀ (k : Nat) (x : Lora), x ∈ laneStream bl toA k chains →
      x.active = true ∧ is_lora_blacklisted bl x.name = false := by
  induction chains with
  | nil => intro k x h; simp [laneStream] at h
  | cons c rest ih =>
    intro k x h
    rcases List.mem_append.mp h with h1 | h2
    · by_cases hc : chainToLaneA bl k c = toA
      · simp only [hc, if_pos rfl, filteredLoras] at h1
        have hf := List.mem_filter.mp h1
        constructor
        · exact (Bool.and_eq_true _ _ |>.mp hf.2).1
        · simpa using (Bool.and_eq_true _ _ |>.mp hf.2).2
      · simp [hc] at h1
    · exact ih (k + 1) x h2

theorem chainToLaneA_high (bl : Blacklist) (i : Nat) (c : Chain)
    (hh : chain_has_high c = true) (hl : chain_has_low c = false) :
    chainToLaneA bl i c = true := by
  simp [chainToLaneA, chainFinalHigh, chainFinalLow, hh, hl]

theorem chainToLaneA_low (bl : Blacklist) (i : Nat) (c : Chain)
    (hh : chain_has_high c = false) (hl : chain_has_low c = true) :
    chainToLaneA bl i c = false := by
  simp [chainToLaneA, chainFinalHigh, chainFinalLow, hh, hl]

theorem chainToLaneA_undecided (bl : Blacklist) (i : Nat) (c : Chain)
    (h1 : chainFinalHigh bl c = false) (h2 : chainFinalLow bl c = false) :
    chainToLaneA bl i c = (if i = 0 then true else if i = 1 then false else true) := by
  simp [chainToLaneA, h1, h2]

theorem assignChains_not_blacklisted (bl : Blacklist) (chains : List Chain) :
    (∀ x ∈ (assignChains bl chains).loras_a, is_lora_blacklisted bl x.name = false) ∧
    (∀ x ∈ (assignChains bl chains).loras_b, is_lora_blacklisted bl x.name = false) := by
  rw [assignChains_eq]
  constructor <;> intro x hx <;>
    exact (laneStream_filtered bl _ chains 0 x (dedupGo_subset _ _ x hx)).2

theorem apiStep_loras (bl : Blacklist) (nm : NodeMap) (skip : Bool)
    (st : List String × List Lora × List String) (e : Nat × APINode) :
    ∀ x ∈ (apiStep bl nm skip st e).2.1,
      x ∈ st.2.1 ∨ is_lora_blacklisted bl x.name = false := by
  obtain ⟨pp, la, sa⟩ := st
  unfold apiStep
  dsimp only
  repeat' split
  all_goals intro x hx
  all_goals try exact Or.inl hx
  all_goals
    rcases List.mem_append.mp hx with h | h
  all_goals try exact Or.inl h
  all_goals simp_all

theorem inlineLoraStep_loras (bl : Blacklist) (st : List Lora × List String)
    (m : LoraTag) :
    ∀ x ∈ (inlineLoraStep bl st m).1,
      x ∈ st.1 ∨ is_lora_blacklisted bl x.name = false := by
  obtain ⟨la, sa⟩ := st
  unfold inlineLoraStep
  dsimp only
  repeat' split
  all_goals intro x hx
  all_goals try exact Or.inl hx
  all_goals
    rcases List.mem_append.mp hx with h | h
  all_goals try exact Or.inl h
  all_goals simp_all

theorem foldl_apiStep_loras (bl : Blacklist) (nm : NodeMap) (skip : Bool)
    (data : List (Nat × APINode)) :
    ∀ (st : List String × List Lora × List String),
    ∀ x ∈ (data.foldl (apiStep bl nm skip) st).2.1,
      x ∈ st.2.1 ∨ is_lora_blacklisted bl x.name = false := by
  induction data with
  | nil => intro st x hx; exact Or.inl hx
  | cons e rest ih =>
    intro st x hx
    rw [List.foldl_cons] at hx
    rcases ih (apiStep bl nm skip st e) x hx with h | h
    · exact apiStep_loras bl nm skip st e x h
    · exact Or.inr h

theorem foldl_inline_loras (bl : Blacklist) (tags : List LoraTag) :
    ∀ (st : List Lora × List String),
    ∀ x ∈ (tags.foldl (inlineLoraStep bl) st).1,
      x ∈ st.1 ∨ is_lora_blacklisted bl x.name = false := by
  induction tags with
  | nil => intro st x hx; exact Or.inl hx
  | cons m rest ih =>
    intro st x hx
    rw [List.foldl_cons] at hx
    rcases ih (inlineLoraStep bl st m) x hx with h | h
    · exact inlineLoraStep_loras bl st m x h
    · exact Or.inr h

theorem parse_workflow_not_blacklisted (bl : Blacklist) (wf : Workflow) :
    (∀ x ∈ (parse_workflow_for_prompts bl wf).loras_a,
      is_lora_blacklisted bl x.name = false) ∧
    (∀ x ∈ (parse_workflow_for_prompts bl wf).loras_b,
      is_lora_blacklisted bl x.name = false) := by
  unfold parse_workflow_for_prompts
  dsimp only
  constructor
  · intro x hx
    split at hx
    · rcases foldl_inline_loras bl _ _ x hx with h | h
      · rcases foldl_apiStep_loras bl _ _ _ _ x h with h2 | h2
        · exact (assignChains_not_blacklisted bl _).1 x h2
        · exact h2
      · exact h
    · rcases foldl_apiStep_loras bl _ _ _ _ x hx with h2 | h2
      · exact (assignChains_not_blacklisted bl _).1 x h2
      · exact h2
  · intro x hx
    exact (assignChains_not_blacklisted bl _).2 x hx

theorem voteCounts_skip_blacklisted (bl : Blacklist) (lora : Lora)
    (hbl : is_lora_blacklisted bl lora.name = true) (l1 l2 : List Lora) :
    voteCounts bl (l1 ++ lora :: l2) = voteCounts bl (l1 ++ l2) := by
  unfold voteCounts
  rw [List.foldl_append, List.foldl_append, List.foldl_cons]
  congr 1
  simp [hbl]

/-! ### The claims -/

/-- C1: the claim says a vote-decided chain goes to lane A exactly when
the count of high-named adapters strictly exceeds the count of low-named
ones, each adapter contributing at most one vote per side.  The code
increments the low counter twice per low-named adapter (the duplicated
`low_count += 1` of source lines 1809-1810), contradicting the adjacent
comment "Count how many LoRAs have high/low indicators".  Evaluated at
the failing input: a signal-free chain with two high-named and one
low-named active adapters counts 2-2 instead of 2-1, so instead of
winning the vote and going to lane A it falls to the positional default
and, at index 1, lands in lane B. -/
theorem C1_low_vote_double_count :
    voteCounts LORA_BLACKLIST chainC1vote.loras = (2, 2) ∧
    chain_has_high chainC1vote = false ∧ chain_has_low chainC1vote = false ∧
    (assignChains LORA_BLACKLIST [chainC1plain, chainC1vote]).loras_b.map (fun l => l.name)
      = ["a_high", "b_high", "c_low"] ∧
    (assignChains LORA_BLACKLIST [chainC1plain, chainC1vote]).loras_a.map (fun l => l.name)
      = ["style"] := by decide

/-- C2 counterexample: the claim says lane dedup is by case-insensitive
normalized name.  A single chain holding `Style.safetensors` and
`style.safetensors` resolves to a lane A containing both records: the
names differ only by case, so the case-insensitive dedup the claim
states would have dropped one of them. -/
theorem C2_counterexample_case_insensitive_dedup :
    ((parse_workflow_for_prompts LORA_BLACKLIST wfC2dup).loras_a.map (fun l => l.name)
      = ["style", "Style"]) ∧
    pyLower "Style" = pyLower "style" ∧ ("Style" : String) ≠ "style" := by decide

/-- C2 (amended): within the chain-assignment stage, each lane is the
first-occurrence dedup of its adapter stream by EXACT (case-sensitive)
normalized name: no two retained adapters share an exact name, and for
every name the retained record is the first adapter bearing it in
chain-processing order, kept with its strength values, while every later
exact duplicate is dropped, not merged (the `find?` equations say the
lane's first match for any name is the stream's first match). -/
theorem C2_exact_name_dedup (bl : Blacklist) (chains : List Chain) :
    ((assignChains bl chains).loras_a = (dedupGo [] (laneStream bl true 0 chains)).1) ∧
    ((assignChains bl chains).loras_b = (dedupGo [] (laneStream bl false 0 chains)).1) ∧
    ((assignChains bl chains).loras_a.map (fun l => l.name)).Nodup ∧
    ((assignChains bl chains).loras_b.map (fun l => l.name)).Nodup ∧
    (∀ n, (assignChains bl chains).loras_a.find? (fun l => l.name = n)
      = (laneStream bl true 0 chains).find? (fun l => l.name = n)) ∧
    (∀ n, (assignChains bl chains).loras_b.find? (fun l => l.name = n)
      = (laneStream bl false 0 chains).find? (fun l => l.name = n)) := by
  rw [assignChains_eq]
  refine ⟨rfl, rfl, dedupGo_names_nodup _ _, dedupGo_names_nodup _ _, ?_, ?_⟩ <;>
    intro n <;> exact dedupGo_find? _ [] n (by simp)

/-- C3 counterexample: the claim says matching is on word boundaries, so
"high" inside an unrelated token does not trigger the rule.  A chain
titled "thigh noise" fails the word-boundary search, yet the
separator-stripped substring fallback ("highnoise") fires and sends the
chain to lane A — at index 1 it would otherwise have defaulted to
lane B. -/
theorem C3_counterexample_word_boundary :
    searchWord "high" (pyLower "thigh noise") = false ∧
    searchWord "low" (pyLower "thigh noise") = false ∧
    chain_has_high chainC3thigh = true ∧
    ((assignChains LORA_BLACKLIST [chainC3plain, chainC3thigh]).loras_a.map (fun l => l.name)
      = ["base_style", "accent"]) ∧
    (assignChains LORA_BLACKLIST [chainC3plain, chainC3thigh]).loras_b = [] := by decide

/-- C3 (amended): whenever the chain-level signal fires for exactly one
side — via the word-boundary search on titles/slot name/slot label, or
via the separator-stripped "highnoise"/"lownoise" substring fallback on
the titles, which can also fire for "high"/"low" inside unrelated tokens
— a high-signalled chain's active, non-blacklisted adapters land in lane
A and a low-signalled chain's in lane B, regardless of the chain's
position in the processing order. -/
theorem C3_structural_lane_assignment (bl : Blacklist) (chains : List Chain)
    (i : Nat) (c : Chain) (hc : chains[i]? = some c) :
    (chain_has_high c = true → chain_has_low c = false →
      ∀ l ∈ c.loras, l.active = true → is_lora_blacklisted bl l.name = false →
        l.name ∈ (assignChains bl chains).loras_a.map (fun x => x.name)) ∧
    (chain_has_low c = true → chain_has_high c = false →
      ∀ l ∈ c.loras, l.active = true → is_lora_blacklisted bl l.name = false →
        l.name ∈ (assignChains bl chains).loras_b.map (fun x => x.name)) := by
  rw [assignChains_eq]
  constructor
  · intro hh hl l hmem hact hbl
    have hfl : l ∈ filteredLoras bl c :=
      List.mem_filter.mpr ⟨hmem, by simp [hact, hbl]⟩
    have hstream := laneStream_mem bl true chains 0 i c hc
      (by simpa using chainToLaneA_high bl (0 + i) c hh hl) l hfl
    exact dedupGo_names_mem _ [] l.name (List.mem_map.mpr ⟨l, hstream, rfl⟩) (by simp)
  · intro hl hh l hmem hact hbl
    have hfl : l ∈ filteredLoras bl c :=
      List.mem_filter.mpr ⟨hmem, by simp [hact, hbl]⟩
    have hstream := laneStream_mem bl false chains 0 i c hc
      (by simpa using chainToLaneA_low bl (0 + i) c hh hl) l hfl
    exact dedupGo_names_mem _ [] l.name (List.mem_map.mpr ⟨l, hstream, rfl⟩) (by simp)

/-- Witness for C3: with one high-signalled and one low-signalled chain,
the high chain's adapter name appears in lane A and the low chain's in
lane B. -/
theorem C3_structural_lane_assignment_witness :
    "wit_a" ∈ (assignChains LORA_BLACKLIST [chainW3high, chainW3low]).loras_a.map
      (fun x => x.name) ∧
    "wit_b" ∈ (assignChains LORA_BLACKLIST [chainW3high, chainW3low]).loras_b.map
      (fun x => x.name) :=
  ⟨(C3_structural_lane_assignment LORA_BLACKLIST [chainW3high, chainW3low] 0
      chainW3high rfl).1 (by decide) (by decide) (mkPlainLora "wit_a")
      (by decide) (by decide) (by decide),
   (C3_structural_lane_assignment LORA_BLACKLIST [chainW3high, chainW3low] 1
      chainW3low rfl).2 (by decide) (by decide) (mkPlainLora "wit_b")
      (by decide) (by decide) (by decide)⟩

/-- C4 counterexample: the claim says every inline adapter reference in
the resolved text yields a lane-A record for every resolution.  In a
workflow where a loader chain was collected, the reference `extra` is
found by the scanner but never appended (the source skips inline
extraction whenever chains exist); the tag is still stripped from the
text — and the baked text is picked up by both the workflow pass and the
converted-API pass, so it is duplicated in the positive prompt. -/
theorem C4_counterexample_inline_skipped :
    (scanLoraTags "a dog <lora:extra:0.5> runs").1
      = [{ g1 := "extra", g2 := "0.5", g3 := none }] ∧
    ((parse_workflow_for_prompts LORA_BLACKLIST wfC4chain).loras_a.map (fun l => l.name)
      = ["style"]) ∧
    ("extra" ∉ (parse_workflow_for_prompts LORA_BLACKLIST wfC4chain).loras_a.map
      (fun l => l.name)) ∧
    (parse_workflow_for_prompts LORA_BLACKLIST wfC4chain).positive_prompt
      = "a dog runs, a dog runs" := by decide

/-- C4 (amended): inline adapter references are extracted only when no
loader chains were collected; each accepted match (non-blacklisted,
exact name unseen in lane A) appends one record whose clip strength
defaults to the model strength when the optional group is absent.  In
particular, in API-format input the text `'a dog <lora:pup_style:0.6>'`
resolves to positive text "a dog" with the lane-A record
`{pup_style, 0.6, 0.6}`. -/
theorem C4_inline_extraction (bl : Blacklist) (loras_a : List Lora)
    (seen : List String) (m : LoraTag)
    (h3 : m.g3 = none) (hg2 : m.g2 ≠ "")
    (hbl : is_lora_blacklisted bl (pyStrip m.g1) = false)
    (hseen : pyStrip m.g1 ∉ seen) :
    inlineLoraStep bl (loras_a, seen) m =
      (loras_a ++ [inlineRecordOf m], seen ++ [pyStrip m.g1]) ∧
    parse_api_for_prompts LORA_BLACKLIST dataS5 =
      { positive_prompt := "a dog", negative_prompt := "",
        loras_a := [pupLora], loras_b := [] } ∧
    PyFloat.val ⟨6, 1⟩ = 0.6 := by
  refine ⟨?_, by decide, by norm_num [PyFloat.val]⟩
  unfold inlineLoraStep inlineRecordOf
  simp [h3, hg2, hbl, hseen]

/-- Witness for C4: one clip-less inline match appends exactly one
lane-A record with clip strength equal to model strength. -/
theorem C4_inline_extraction_witness :
    inlineLoraStep LORA_BLACKLIST ([], []) tagW4 =
      ([inlineRecordOf tagW4], [pyStrip tagW4.g1]) := by
  simpa using (C4_inline_extraction LORA_BLACKLIST [] [] tagW4 rfl (by decide)
    (by decide) (by decide)).1

/-- C5 counterexample: the claim says the FIRST unresolved chain goes to
lane A.  With a first chain resolved by its structural signal and a
second, signal-free chain, the second chain is the first unresolved one,
yet it lands in lane B, because the positional default keys on the
chain's global index in the processing order, not on its rank among
unresolved chains. -/
theorem C5_counterexample_positional :
    chainFinalHigh LORA_BLACKLIST chainC5plain = false ∧
    chainFinalLow LORA_BLACKLIST chainC5plain = false ∧
    chainFinalHigh LORA_BLACKLIST chainC5high = true ∧
    ((assignChains LORA_BLACKLIST [chainC5high, chainC5plain]).loras_b.map (fun l => l.name)
      = ["plain_extra"]) := by decide

/-- C5 (amended): when neither the structural/lexical signal nor the
filename vote decides a chain, the positional default applies the
chain's GLOBAL index in the sorted processing order: index 0 goes to
lane A, index 1 to lane B, and every later index to lane A, regardless
of how the other chains were resolved. -/
theorem C5_positional_by_global_index (bl : Blacklist) (chains : List Chain)
    (i : Nat) (c : Chain) (hc : chains[i]? = some c)
    (h1 : chainFinalHigh bl c = false) (h2 : chainFinalLow bl c = false) :
    (i = 0 → ∀ l ∈ c.loras, l.active = true → is_lora_blacklisted bl l.name = false →
       l.name ∈ (assignChains bl chains).loras_a.map (fun x => x.name)) ∧
    (i = 1 → ∀ l ∈ c.loras, l.active = true → is_lora_blacklisted bl l.name = false →
       l.name ∈ (assignChains bl chains).loras_b.map (fun x => x.name)) ∧
    (2 ≤ i → ∀ l ∈ c.loras, l.active = true → is_lora_blacklisted bl l.name = false →
       l.name ∈ (assignChains bl chains).loras_a.map (fun x => x.name)) := by
  rw [assignChains_eq]
  refine ⟨?_, ?_, ?_⟩
  · intro hi l hmem hact hbl
    have hfl : l ∈ filteredLoras bl c :=
      List.mem_filter.mpr ⟨hmem, by simp [hact, hbl]⟩
    have hA : chainToLaneA bl (0 + i) c = true := by
      rw [chainToLaneA_undecided bl (0 + i) c h1 h2]
      simp [hi]
    have hstream := laneStream_mem bl true chains 0 i c hc hA l hfl
    exact dedupGo_names_mem _ [] l.name (List.mem_map.mpr ⟨l, hstream, rfl⟩) (by simp)
  · intro hi l hmem hact hbl
    have hfl : l ∈ filteredLoras bl c :=
      List.mem_filter.mpr ⟨hmem, by simp [hact, hbl]⟩
    have hA : chainToLaneA bl (0 + i) c = false := by
      rw [chainToLaneA_undecided bl (0 + i) c h1 h2]
      simp [hi]
    have hstream := laneStream_mem bl false chains 0 i c hc hA l hfl
    exact dedupGo_names_mem _ [] l.name (List.mem_map.mpr ⟨l, hstream, rfl⟩) (by simp)
  · intro hi l hmem hact hbl
    have hfl : l ∈ filteredLoras bl c :=
      List.mem_filter.mpr ⟨hmem, by simp [hact, hbl]⟩
    have hA : chainToLaneA bl (0 + i) c = true := by
      rw [chainToLaneA_undecided bl (0 + i) c h1 h2]
      have hi0 : i ≠ 0 := by omega
      have hi1 : i ≠ 1 := by omega
      simp [hi0, hi1]
    have hstream := laneStream_mem bl true chains 0 i c hc hA l hfl
    exact dedupGo_names_mem _ [] l.name (List.mem_map.mpr ⟨l, hstream, rfl⟩) (by simp)

/-- Witness for C5: three signal-free chains land in lanes A, B, A. -/
theorem C5_positional_by_global_index_witness :
    "wit_c" ∈ (assignChains LORA_BLACKLIST [chainW5a, chainW5b, chainW5c]).loras_a.map
      (fun x => x.name) ∧
    "wit_d" ∈ (assignChains LORA_BLACKLIST [chainW5a, chainW5b, chainW5c]).loras_b.map
      (fun x => x.name) ∧
    "wit_e" ∈ (assignChains LORA_BLACKLIST [chainW5a, chainW5b, chainW5c]).loras_a.map
      (fun x => x.name) :=
  ⟨(C5_positional_by_global_index LORA_BLACKLIST [chainW5a, chainW5b, chainW5c] 0
      chainW5a rfl (by decide) (by decide)).1 rfl (mkPlainLora "wit_c")
      (by decide) (by decide) (by decide),
   (C5_positional_by_global_index LORA_BLACKLIST [chainW5a, chainW5b, chainW5c] 1
      chainW5b rfl (by decide) (by decide)).2.1 rfl (mkPlainLora "wit_d")
      (by decide) (by decide) (by decide),
   (C5_positional_by_global_index LORA_BLACKLIST [chainW5a, chainW5b, chainW5c] 2
      chainW5c rfl (by decide) (by decide)).2.2 (by omega) (mkPlainLora "wit_e")
      (by decide) (by decide) (by decide)⟩

/-- C6: the blacklist law.  For every blacklist and every workflow
resolution, no adapter in either lane has a blacklisted normalized name
(matching: case-insensitive substring for a single keyword, AND over all
keywords of a group); and a blacklisted adapter inserted anywhere among
a chain's active adapters leaves the high/low vote counts unchanged. -/
theorem C6_blacklist_law (bl : Blacklist) (wf : Workflow) :
    (∀ x ∈ (parse_workflow_for_prompts bl wf).loras_a,
      is_lora_blacklisted bl x.name = false) ∧
    (∀ x ∈ (parse_workflow_for_prompts bl wf).loras_b,
      is_lora_blacklisted bl x.name = false) ∧
    (∀ (lora : Lora) (l1 l2 : List Lora), is_lora_blacklisted bl lora.name = true →
      voteCounts bl (l1 ++ lora :: l2) = voteCounts bl (l1 ++ l2)) :=
  ⟨(parse_workflow_not_blacklisted bl wf).1,
   (parse_workflow_not_blacklisted bl wf).2,
   fun lora l1 l2 h => voteCounts_skip_blacklisted bl lora h l1 l2⟩

/-- Witness for C6: the adapter retained from a one-loader workflow is
not blacklisted, and inserting a `lightx2v`-named adapter does not
change the vote counts. -/
theorem C6_blacklist_law_witness :
    is_lora_blacklisted LORA_BLACKLIST loraC6style.name = false ∧
    voteCounts LORA_BLACKLIST
        ([mkPlainLora "a_high"] ++ mkPlainLora "lightx2v_rank32" :: []) =
      voteCounts LORA_BLACKLIST ([mkPlainLora "a_high"] ++ []) :=
  ⟨(C6_blacklist_law LORA_BLACKLIST wfC6simple).1 loraC6style (by decide),
   (C6_blacklist_law LORA_BLACKLIST wfC6simple).2.2 (mkPlainLora "lightx2v_rank32")
      [mkPlainLora "a_high"] [] (by decide)⟩

/-- C7: text resolution is a total function (the embedding is
structurally recursive on the depth budget, mirroring the source, whose
every recursive call passes `max_depth - 1`), and each terminating guard
returns the empty string: a node already in the visited set (a cycle),
an exhausted depth budget, and a node with no resolvable producer (not
present in the node map). -/
theorem C7_text_resolution_guards (nm : NodeMap) (lm : LinkMap)
    (node_id input_slot : Nat) (visited : List Nat) (max_depth : Nat) :
    (node_id ∈ visited →
      (traverse_to_find_text nm lm node_id input_slot visited max_depth).1 = "") ∧
    (max_depth = 0 →
      (traverse_to_find_text nm lm node_id input_slot visited max_depth).1 = "") ∧
    (mapLookup nm node_id = none →
      (traverse_to_find_text nm lm node_id input_slot visited max_depth).1 = "") := by
  cases max_depth with
  | zero => exact ⟨fun _ => rfl, fun _ => rfl, fun _ => rfl⟩
  | succ d =>
    refine ⟨?_, ?_, ?_⟩
    · intro hv
      simp [traverse_to_find_text, hv]
    · intro h; exact absurd h (by omega)
    · intro hn
      by_cases hv : node_id ∈ visited
      · simp [traverse_to_find_text, hv]
      · simp [traverse_to_find_text, hv, hn]

/-- Witness for C7, on a graph whose text links form a 2-cycle: the
visited guard, the depth guard, and the missing-node guard all yield the
empty string. -/
theorem C7_text_resolution_guards_witness :
    (traverse_to_find_text (build_node_map wfTextCycle) (build_link_map wfTextCycle)
      7 0 [7] 20).1 = "" ∧
    (traverse_to_find_text (build_node_map wfTextCycle) (build_link_map wfTextCycle)
      7 0 [] 0).1 = "" ∧
    (traverse_to_find_text (build_node_map wfTextCycle) (build_link_map wfTextCycle)
      99 0 [] 20).1 = "" :=
  ⟨(C7_text_resolution_guards (build_node_map wfTextCycle) (build_link_map wfTextCycle)
      7 0 [7] 20).1 (by decide),
   (C7_text_resolution_guards (build_node_map wfTextCycle) (build_link_map wfTextCycle)
      7 0 [] 0).2.1 rfl,
   (C7_text_resolution_guards (build_node_map wfTextCycle) (build_link_map wfTextCycle)
      99 0 [] 20).2.2 rfl⟩

/-- C8 counterexample: the claim expects the Scenario-1 fixture to
resolve to positiveText "a cat" and negativeText "blurry".  On the code
both baked texts are at most 10 characters, so the (correctly
classifying) workflow pass extracts neither, and the converted-API pass
then appends both texts, unconditionally as positive. -/
theorem C8_counterexample_polarity_fixture :
    parse_workflow_for_prompts LORA_BLACKLIST wfC8fixture =
      { positive_prompt := "blurry, a cat", negative_prompt := "",
        loras_a := [], loras_b := [] } ∧
    ("blurry, a cat" : String) ≠ "a cat" ∧ ("" : String) ≠ "blurry" := by decide

/-- C8 (amended): the per-node polarity decision is exactly as claimed —
a downstream-link slot-name signal decides first, then a
case-insensitive title check, with positive as the default — but the
claimed fixture outcome does not follow: its texts are length-gated out
of the workflow pass (≤ 10 characters) and the converted-API pass
appends every baked encoder text as positive, so the fixture resolves to
positiveText "blurry, a cat" and negativeText "". -/
theorem C8_polarity_priority (wf : Workflow) (nm : NodeMap) (node_id : Nat)
    (title : String) :
    (∀ t, determine_clip_text_encode_type wf nm node_id = some t →
       clipPolarity wf nm node_id title = t) ∧
    (determine_clip_text_encode_type wf nm node_id = none →
       pyIn "negative" (pyLower title) = true →
       clipPolarity wf nm node_id title = "negative") ∧
    (determine_clip_text_encode_type wf nm node_id = none →
       pyIn "negative" (pyLower title) = false →
       pyIn "positive" (pyLower title) = true →
       clipPolarity wf nm node_id title = "positive") ∧
    (determine_clip_text_encode_type wf nm node_id = none →
       pyIn "negative" (pyLower title) = false →
       pyIn "positive" (pyLower title) = false →
       clipPolarity wf nm node_id title = "positive") ∧
    parse_workflow_for_prompts LORA_BLACKLIST wfC8fixture =
      { positive_prompt := "blurry, a cat", negative_prompt := "",
        loras_a := [], loras_b := [] } := by
  refine ⟨?_, ?_, ?_, ?_, by decide⟩
  · intro t h; simp [clipPolarity, h]
  · intro h hneg; simp [clipPolarity, h, hneg]
  · intro h hneg hpos; simp [clipPolarity, h, hneg, hpos]
  · intro h hneg hpos; simp [clipPolarity, h, hneg, hpos]

/-- Witness for C8: on the fixture, the titled node classifies negative
by its title and the untitled node defaults to positive. -/
theorem C8_polarity_priority_witness :
    clipPolarity wfC8fixture (build_node_map wfC8fixture) 1 "Negative Prompt"
      = "negative" ∧
    clipPolarity wfC8fixture (build_node_map wfC8fixture) 2 "" = "positive" :=
  ⟨(C8_polarity_priority wfC8fixture (build_node_map wfC8fixture) 1
      "Negative Prompt").2.1 rfl (by decide),
   (C8_polarity_priority wfC8fixture (build_node_map wfC8fixture) 2 "").2.2.2.1
      rfl (by decide) (by decide)⟩

/-- C9: a loader node none of whose MODEL / adapter-stack-typed outputs
has a live link contributes zero adapters: its own contribution is
empty, and the chain collector's value at such a node is exactly the
backward walk over its model-ish inputs started from an empty
accumulation — even though the node was reached by id. -/
theorem C9_disconnected_loader_inert (nm : NodeMap) (lm : LinkMap)
    (fuel start : Nat) (visited : List Nat) (node : WNode)
    (hv : start ∉ visited) (hn : mapLookup nm start = some node)
    (_hloader : is_lora_node node.type = true)
    (hconn : hasConnectedModelOutput node = false) :
    ownChainContribution node = ([], []) ∧
    collectModelChainGo nm lm (fuel + 1) start visited =
      chainInputsFold (collectModelChainGo nm lm fuel) lm node.inputs
        ([], [], start :: visited) := by
  have hown : ownChainContribution node = ([], []) := by
    unfold ownChainContribution
    simp [hconn]
  refine ⟨hown, ?_⟩
  unfold collectModelChainGo
  simp [hv, hn, hown]

/-- Witness for C9: a reachable loader with a `None` link list on its
MODEL output yields an empty chain even though its decoder would return
an adapter. -/
theorem C9_disconnected_loader_inert_witness :
    collectModelChainGo [(5, loaderDisc)] [] 2 5 [] =
      chainInputsFold (collectModelChainGo [(5, loaderDisc)] [] 1) []
        loaderDisc.inputs ([], [], [5]) ∧
    extract_loras_from_node loaderDisc ≠ [] ∧
    collect_lora_model_chain [(5, loaderDisc)] [] 5 = ([], []) :=
  ⟨(C9_disconnected_loader_inert [(5, loaderDisc)] [] 1 5 [] loaderDisc
      (by decide) rfl (by decide) (by decide)).2,
   by decide, by decide⟩

/-- C10: the public extract operation never returns an empty string for
either prompt output; whenever resolution yields no positive
(respectively negative) text, the returned string is the single space
" ". -/
theorem C10_prompt_outputs_never_empty (parsed? : Option ParseResult) :
    (extractPromptStrings parsed?).1 ≠ "" ∧
    (extractPromptStrings parsed?).2 ≠ "" ∧
    ((match parsed? with | some p => p.positive_prompt | none => "") = "" →
      (extractPromptStrings parsed?).1 = " ") ∧
    ((match parsed? with | some p => p.negative_prompt | none => "") = "" →
      (extractPromptStrings parsed?).2 = " ") := by
  cases parsed? with
  | none => exact ⟨by decide, by decide, fun _ => rfl, fun _ => rfl⟩
  | some p =>
    unfold extractPromptStrings
    refine ⟨?_, ?_, ?_, ?_⟩
    · by_cases h : p.positive_prompt = "" <;> simp [h]
    · by_cases h : p.negative_prompt = "" <;> simp [h]
    · intro h
      have h2 : p.positive_prompt = "" := h
      simp [h2]
    · intro h
      have h2 : p.negative_prompt = "" := h
      simp [h2]

/-- Witness for C10: an empty positive text maps to " ", and a missing
metadata record maps both outputs to " ". -/
theorem C10_prompt_outputs_never_empty_witness :
    (extractPromptStrings (some emptyPositiveResult)).1 = " " ∧
    (extractPromptStrings none).2 = " " :=
  ⟨(C10_prompt_outputs_never_empty (some emptyPositiveResult)).2.2.1 rfl,
   (C10_prompt_outputs_never_empty none).2.2.2 rfl⟩

end PromptManager
